import Mathlib

/-!
Verification development for the fantrax-pl-lineup-manager repository.

Namespace TM embeds the fantrax_pl_team_manager package (the domain model in
domain/fantasy_player.py, domain/fantasy_roster.py, the services in
services/fantrax_roster_manager.py and services/lineup_optimizer.py).
Namespace LM embeds the fantrax_pl_lineup_manager package
(services/fantrax_roster.py and services/gameweek_manager.py).
A separate section embeds services/fantasy_value_calculator.py over the reals.

Modelling conventions: Python floats for player values are modelled as
rationals (the core only ever compares them), the calculator formulas over
the reals; Python dict counters with int values are modelled as Int fields;
Python exceptions are Except values; in-place mutation of player objects is
modelled by rebuilding lists.
-/

namespace FPL

/-- Roster positions G, D, M, F (POSITION_MAP_BY_ID values in
services/fantrax_player.py; the four keys of the starter_position_counts
dict). -/
inductive Pos where
  | G
  | D
  | M
  | F
deriving DecidableEq, Repr

/-- Status string constants from services/fantrax_player.py. -/
def STATUS_BENCHED : String := "benched"

def STATUS_SUSPENDED : String := "suspended"

def STATUS_OUT : String := "out"

def STATUS_OUT_FOR_NEXT_GAME : String := "out-for-next-game"

def STATUS_STARTING : String := "starting"

def STATUS_EXPECTED_TO_PLAY : String := "expected-to-play"

def STATUS_UNCERTAIN_GAMETIME_DECISION : String := "uncertain-gametime-decision"

/-- The seven recognized status strings (values of STATUS_ICON_MAP_BY_ID). -/
def recognized_statuses : List String :=
  [STATUS_STARTING, STATUS_BENCHED, STATUS_OUT, STATUS_EXPECTED_TO_PLAY,
   STATUS_OUT_FOR_NEXT_GAME, STATUS_UNCERTAIN_GAMETIME_DECISION, STATUS_SUSPENDED]

/-- FantasyPlayer.is_benched_or_suspended_or_out_in_gameweek
(domain/fantasy_player.py): true when the status set meets
the four bad statuses. -/
def is_benched_or_suspended_or_out (icon_statuses : List String) : Bool :=
  icon_statuses.any fun s =>
    s == STATUS_BENCHED || s == STATUS_SUSPENDED || s == STATUS_OUT ||
      s == STATUS_OUT_FOR_NEXT_GAME

/-- FantasyPlayer.is_uncertain_gametime_decision_in_gameweek
(domain/fantasy_player.py). -/
def is_uncertain_gametime_decision (icon_statuses : List String) : Bool :=
  icon_statuses.contains STATUS_UNCERTAIN_GAMETIME_DECISION

/-- FantasyPlayer.is_starting_in_gameweek (domain/fantasy_player.py). -/
def is_starting (icon_statuses : List String) : Bool :=
  icon_statuses.contains STATUS_STARTING

/-- FantasyPlayer.is_expected_to_play_in_gameweek (domain/fantasy_player.py):
with an empty status set the player is assumed expected to play. -/
def is_expected_to_play (icon_statuses : List String) : Bool :=
  if icon_statuses.isEmpty then true
  else icon_statuses.contains STATUS_EXPECTED_TO_PLAY

/-- Starter position counts: the starter_position_counts dict of
valid_substitutions, with one Int field per position key. -/
structure Counts where
  g : Int
  d : Int
  m : Int
  f : Int
deriving DecidableEq, Repr

/-- Python sum(starter_position_counts.values()). -/
def Counts.total (c : Counts) : Int := c.g + c.d + c.m + c.f

/-- Add delta to the entry of the given position key. -/
def Counts.bump (c : Counts) (pos : Pos) (delta : Int) : Counts :=
  match pos with
  | .G => { c with g := c.g + delta }
  | .D => { c with d := c.d + delta }
  | .M => { c with m := c.m + delta }
  | .F => { c with f := c.f + delta }

namespace TM

/-- Immutable attributes of a roster player: everything the optimizers read
but never write. Statistics are reduced to the per-gameweek fantasy points,
the only stat the core consults (PlayerGameweekStats.points). -/
structure PlayerStatic where
  id : String
  name : String
  team_name : Option String
  upcoming_game_opponent : Option String
  upcoming_game_home_or_away : Option String
  icon_statuses : List String
  gameweek_points : List Rat
  rostered_position : Pos
  disable_lineup_change : Bool
deriving DecidableEq, Repr

/-- FantasyRosterPlayer (domain/fantasy_roster_player.py): the immutable
attributes plus the two fields the optimizers mutate in place, the
rostered_starter flag and fantasy_value.value_for_gameweek. -/
structure FantasyRosterPlayer where
  static : PlayerStatic
  rostered_starter : Bool
  value_for_gameweek : Rat
deriving DecidableEq, Repr

/-- FantasyRosterPlayer.change_to_starter. -/
def change_to_starter (p : FantasyRosterPlayer) : FantasyRosterPlayer :=
  { p with rostered_starter := true }

/-- FantasyRosterPlayer.change_to_reserve. -/
def change_to_reserve (p : FantasyRosterPlayer) : FantasyRosterPlayer :=
  { p with rostered_starter := false }

/-- Count of current starters at a position: the loop over self.starters
that fills starter_position_counts. -/
def count_starters_at (roster : List FantasyRosterPlayer) (pos : Pos) : Int :=
  ((roster.filter fun p =>
    p.rostered_starter && p.static.rostered_position == pos).length : Int)

/-- The initial starter_position_counts dict of valid_substitutions. -/
def starters_position_counts (roster : List FantasyRosterPlayer) : Counts :=
  { g := count_starters_at roster .G
    d := count_starters_at roster .D
    m := count_starters_at roster .M
    f := count_starters_at roster .F }

/-- One iteration of the swap loop body after the lock check: decrement the
position of a starter being benched, increment that of a reserve being
promoted. -/
def Counts.adjust (c : Counts) (p : FantasyRosterPlayer) : Counts :=
  if p.rostered_starter then c.bump p.static.rostered_position (-1)
  else c.bump p.static.rostered_position 1

/-- The per-player message for a locked player
(valid_substitutions, domain/fantasy_roster.py line 105). -/
def disabled_msg (p : FantasyRosterPlayer) : String :=
  "Player " ++ p.static.name ++ " is disabled from lineup changes"

/-- The swap-players loop of valid_substitutions: returns early with the
locked-player message, otherwise threads the adjusted counts. -/
def apply_swap_players (c : Counts) :
    List FantasyRosterPlayer → Except String Counts
  | [] => .ok c
  | p :: rest =>
    if p.static.disable_lineup_change then .error (disabled_msg p)
    else apply_swap_players (Counts.adjust c p) rest

/-- The chain of count checks of valid_substitutions after the swap loop:
the total cap, the three minimums (skipped when the flag is set), then the
four maximums; first failure wins. -/
def position_count_checks (c : Counts)
    (disable_min_position_counts_check : Bool) : Bool × Option String :=
  if c.total > 11 then (false, some "Must have at most 11 starters")
  else if !disable_min_position_counts_check && c.d < 3 then
    (false, some "Must have at least 3 Defenders")
  else if !disable_min_position_counts_check && c.m < 3 then
    (false, some "Must have at least 3 Midfielders")
  else if !disable_min_position_counts_check && c.f < 1 then
    (false, some "Must have at least 1 Forward")
  else if c.g > 1 then (false, some "Must have at most 1 Goalkeeper")
  else if c.d > 5 then (false, some "Must have at most 5 Defenders")
  else if c.m > 5 then (false, some "Must have at most 5 Midfielders")
  else if c.f > 3 then (false, some "Must have at most 3 Forwards")
  else (true, none)

/-- FantasyRoster.valid_substitutions (domain/fantasy_roster.py lines 76-145)
and the textually identical FantraxRosterManager.valid_substitutions
(services/fantrax_roster_manager.py lines 173-231): current starter counts,
the swap loop with its inline lock check, then the count checks. -/
def valid_substitutions (roster : List FantasyRosterPlayer)
    (swap_players : List FantasyRosterPlayer)
    (disable_min_position_counts_check : Bool) : Bool × Option String :=
  match apply_swap_players (starters_position_counts roster) swap_players with
  | .error msg => (false, some msg)
  | .ok c => position_count_checks c disable_min_position_counts_check

/-- Specification-side validator for claim C1, written to the claim text:
first a per-player locked check over the toggle list (first locked player
wins), then the count checks in the stated order on the counts obtained by
applying every toggle. To be compared with valid_substitutions. -/
def spec_rule_order_validator (roster : List FantasyRosterPlayer)
    (swap_players : List FantasyRosterPlayer)
    (disable_min_position_counts_check : Bool) : Bool × Option String :=
  match swap_players.find? (fun p => p.static.disable_lineup_change) with
  | some p => (false, some (disabled_msg p))
  | none =>
    position_count_checks
      (swap_players.foldl Counts.adjust (starters_position_counts roster))
      disable_min_position_counts_check

/-- State-threaded form of the swap loop for claim C10: the roster (the only
heap state the method could reach) is threaded through every iteration and
returned alongside the result. -/
def apply_swap_players_state (c : Counts) (roster : List FantasyRosterPlayer) :
    List FantasyRosterPlayer → Except String Counts × List FantasyRosterPlayer
  | [] => (.ok c, roster)
  | p :: rest =>
    if p.static.disable_lineup_change then (.error (disabled_msg p), roster)
    else apply_swap_players_state (Counts.adjust c p) roster rest

/-- State-threaded form of valid_substitutions for claim C10: same statements
as the source method, with the roster state threaded and returned. -/
def valid_substitutions_state (roster : List FantasyRosterPlayer)
    (swap_players : List FantasyRosterPlayer)
    (disable_min_position_counts_check : Bool) :
    (Bool × Option String) × List FantasyRosterPlayer :=
  let step := apply_swap_players_state
    (starters_position_counts roster) roster swap_players
  (match step.1 with
   | .error msg => (false, some msg)
   | .ok c => position_count_checks c disable_min_position_counts_check,
   step.2)

/-- Tier classification of the domain sort
(FantasyRoster.sort_players_by_gameweek_status_and_fantasy_value,
domain/fantasy_roster.py lines 194-203): branch 0 starting-or-expected,
branch 1 uncertain, branch 2 benched-suspended-out, branch 3 the
unaccounted-status else branch (appended to the same third group). The
branches are tested in the source order: uncertain, then benched, then
expected-or-starting. -/
def cls_domain (st : PlayerStatic) : Nat :=
  if is_uncertain_gametime_decision st.icon_statuses then 1
  else if is_benched_or_suspended_or_out st.icon_statuses then 2
  else if is_expected_to_play st.icon_statuses || is_starting st.icon_statuses
    then 0
  else 3

/-- Tier classification of the manager sort
(FantraxRosterManager.sort_players_by_gameweek_status_and_fantasy_value,
services/fantrax_roster_manager.py lines 280-289): the branches are tested
expected-or-starting first, then uncertain, then benched, else the
unaccounted-status branch 3 (appended to the same third group). -/
def cls_manager (st : PlayerStatic) : Nat :=
  if is_expected_to_play st.icon_statuses || is_starting st.icon_statuses
    then 0
  else if is_uncertain_gametime_decision st.icon_statuses then 1
  else if is_benched_or_suspended_or_out st.icon_statuses then 2
  else 3

/-- The single pass over the roster that appends every player to one of the
three tier lists according to its classification branch (branches 2 and 3
share the third list). -/
def partition3 {α : Type} (cls : α → Nat) :
    List α → List α × List α × List α
  | [] => ([], [], [])
  | a :: rest =>
    let t := partition3 cls rest
    match cls a with
    | 0 => (a :: t.1, t.2.1, t.2.2)
    | 1 => (t.1, a :: t.2.1, t.2.2)
    | _ => (t.1, t.2.1, a :: t.2.2)

/-- Descending order on value_for_gameweek: the key of the three
sort(key=..., reverse=True) calls. -/
def val_ge (a b : FantasyRosterPlayer) : Prop :=
  b.value_for_gameweek ≤ a.value_for_gameweek

instance val_ge_decidable : DecidableRel val_ge := fun a b =>
  inferInstanceAs (Decidable (b.value_for_gameweek ≤ a.value_for_gameweek))

instance val_ge_total : IsTotal FantasyRosterPlayer val_ge :=
  ⟨fun a b => (le_total b.value_for_gameweek a.value_for_gameweek).imp id id⟩

instance val_ge_trans : IsTrans FantasyRosterPlayer val_ge :=
  ⟨fun _ _ _ hab hbc => le_trans hbc hab⟩

/-- sort_players_by_gameweek_status_and_fantasy_value: split the roster into
the three tiers, sort each tier descending by value_for_gameweek, then
concatenate. Parameterized by the tier classification, which differs
between the domain and the manager variant. Python list.sort is stable
while insertionSort here resolves ties toward the later element; no claim
depends on tie order among equal values within a tier. -/
def sort_players_by_gameweek_status_and_fantasy_value
    (cls : PlayerStatic → Nat) (roster : List FantasyRosterPlayer) :
    List FantasyRosterPlayer :=
  let t := partition3 (fun p => cls p.static) roster
  t.1.insertionSort val_ge ++ t.2.1.insertionSort val_ge ++
    t.2.2.insertionSort val_ge

/-- The reset step of optimize_lineup: every player not locked from lineup
changes is changed to reserve. -/
def reset_unlocked_to_reserve (roster : List FantasyRosterPlayer) :
    List FantasyRosterPlayer :=
  roster.map fun p =>
    if p.static.disable_lineup_change then p else change_to_reserve p

/-- The promotion walk of optimize_lineup: iterate over the roster in order;
a locked player is skipped; otherwise the player is promoted to starter
exactly when valid_substitutions([player], disable_min_position_counts_check
= True) succeeds on the current roster, which is done plus the rest. -/
def promote_players_loop (done : List FantasyRosterPlayer) :
    List FantasyRosterPlayer → List FantasyRosterPlayer
  | [] => done
  | p :: todo =>
    if p.static.disable_lineup_change then
      promote_players_loop (done ++ [p]) todo
    else if (valid_substitutions (done ++ p :: todo) [p] true).1 then
      promote_players_loop (done ++ [change_to_starter p]) todo
    else promote_players_loop (done ++ [p]) todo

/-- optimize_lineup (services/lineup_optimizer.py lines 11-52): score every
player for the gameweek, sort by status tier and value (domain variant),
reset all unlocked players to reserve, then run the promotion walk. The
scoring call calculate_fantasy_value_for_gameweek is a fixed function of
the player's immutable attributes and of the externally fetched table and
odds, modelled by the calc parameter. -/
def optimize_lineup (calculate_value : PlayerStatic → Rat)
    (roster : List FantasyRosterPlayer) : List FantasyRosterPlayer :=
  promote_players_loop []
    (reset_unlocked_to_reserve
      (sort_players_by_gameweek_status_and_fantasy_value cls_domain
        (roster.map fun p => { p with value_for_gameweek := calculate_value p.static })))

/-- FantraxRosterManager.optimize_lineup (services/fantrax_roster_manager.py
lines 305-339), its pure core: sort by status tier and value (manager
variant), reset unlocked players, promotion walk. The surrounding
refresh_roster and _sync_roster_with_fantrax calls are external
collaborators; player values were set at construction. -/
def manager_optimize_lineup (roster : List FantasyRosterPlayer) :
    List FantasyRosterPlayer :=
  promote_players_loop []
    (reset_unlocked_to_reserve
      (sort_players_by_gameweek_status_and_fantasy_value cls_manager roster))

/-- FantasyRoster.get_reserves_starting_or_expected_to_play
(domain/fantasy_roster.py lines 172-182): reserves that are expected to play
or starting and not locked from lineup changes. -/
def get_reserves_starting_or_expected_to_play
    (roster : List FantasyRosterPlayer) : List FantasyRosterPlayer :=
  roster.filter fun p =>
    !p.rostered_starter &&
      (is_expected_to_play p.static.icon_statuses ||
        is_starting p.static.icon_statuses) &&
      !p.static.disable_lineup_change

/-- Projection used in the frame lemmas: the immutable attributes, the value,
and the starter flag of a locked player (none for an unlocked player). The
optimizer walk preserves this projection pointwise. -/
def pi_proj (p : FantasyRosterPlayer) : PlayerStatic × Rat × Option Bool :=
  (p.static, p.value_for_gameweek,
    if p.static.disable_lineup_change then some p.rostered_starter else none)

/-- Descending value order on the projection. -/
def pi_val_ge (a b : PlayerStatic × Rat × Option Bool) : Prop :=
  b.2.1 ≤ a.2.1

instance pi_val_ge_decidable : DecidableRel pi_val_ge := fun a b =>
  inferInstanceAs (Decidable (b.2.1 ≤ a.2.1))

instance pi_val_ge_total : IsTotal (PlayerStatic × Rat × Option Bool) pi_val_ge :=
  ⟨fun a b => (le_total b.2.1 a.2.1).imp id id⟩

instance pi_val_ge_trans : IsTrans (PlayerStatic × Rat × Option Bool) pi_val_ge :=
  ⟨fun _ _ _ hab hbc => le_trans hbc hab⟩

/-- The tier sort transported to the projection. -/
def pi_sort (cls : PlayerStatic → Nat)
    (l : List (PlayerStatic × Rat × Option Bool)) :
    List (PlayerStatic × Rat × Option Bool) :=
  let t := partition3 (fun x => cls x.1) l
  t.1.insertionSort pi_val_ge ++ t.2.1.insertionSort pi_val_ge ++
    t.2.2.insertionSort pi_val_ge

/-- Rebuild a player from its projection, with unlocked players as reserves:
composed with pi_proj this is exactly reset_unlocked_to_reserve. -/
def rebuild_reset (x : PlayerStatic × Rat × Option Bool) :
    FantasyRosterPlayer :=
  { static := x.1
    rostered_starter := match x.2.2 with
      | some b => b
      | none => false
    value_for_gameweek := x.2.1 }

/-- Starter counts of the locked players only. -/
def locked_starter_counts (roster : List FantasyRosterPlayer) : Counts :=
  starters_position_counts
    (roster.filter fun p => p.static.disable_lineup_change)

/-- The never-relaxed bounds: the position caps and the total cap. -/
def caps_ok (c : Counts) : Prop :=
  c.g ≤ 1 ∧ c.d ≤ 5 ∧ c.m ≤ 5 ∧ c.f ≤ 3 ∧ c.total ≤ 11

instance caps_ok_decidable (c : Counts) : Decidable (caps_ok c) :=
  inferInstanceAs (Decidable (_ ∧ _ ∧ _ ∧ _ ∧ _))

end TM

/-- Events observable by the external sink: a player's starter flag being
toggled, and a lineup submission (a confirmOrExecuteTeamRosterChanges
request). -/
inductive Ev where
  | toggle : String → Ev
  | submit : Ev
deriving DecidableEq, Repr

namespace TM

/-- The reset loop of FantraxRosterManager.optimize_lineup as events: one
change_to_reserve call per player not locked from lineup changes. -/
def reset_events (roster : List FantasyRosterPlayer) : List Ev :=
  (roster.filter fun p => !p.static.disable_lineup_change).map
    fun p => Ev.toggle p.static.id

/-- The promotion walk instrumented with events: one change_to_starter call
per promoted player. -/
def promote_players_loop_events (done : List FantasyRosterPlayer) :
    List FantasyRosterPlayer → List FantasyRosterPlayer × List Ev
  | [] => (done, [])
  | p :: todo =>
    if p.static.disable_lineup_change then
      promote_players_loop_events (done ++ [p]) todo
    else if (valid_substitutions (done ++ p :: todo) [p] true).1 then
      let rest := promote_players_loop_events (done ++ [change_to_starter p]) todo
      (rest.1, Ev.toggle p.static.id :: rest.2)
    else promote_players_loop_events (done ++ [p]) todo

/-- FantraxRosterManager.optimize_lineup as an event trace: the reset loop
events, the promotion walk events, then the single _sync_roster_with_fantrax
call at the end of the method. The refresh_roster call at the start is an
external read and emits nothing. -/
def optimize_lineup_events (roster : List FantasyRosterPlayer) : List Ev :=
  let sorted := sort_players_by_gameweek_status_and_fantasy_value
    cls_manager roster
  reset_events sorted ++
    (promote_players_loop_events [] (reset_unlocked_to_reserve sorted)).2 ++
    [Ev.submit]

end TM

namespace LM

/-- Modelled from the spec: the module
fantrax_pl_lineup_manager.services.fantrax_player is not under src (it is
only imported by services/fantrax_roster.py), so its FantraxPlayer class is
modelled from the data model of the spec: identity, name, position,
rostered_starter and locked flags, the gameweek status set and the computed
value for the gameweek. -/
structure FantraxPlayer where
  id : String
  name : String
  icon_statuses : List String
  rostered_position_short_name : Pos
  rostered_starter : Bool
  disable_lineup_change : Bool
  value_for_gameweek : Rat
deriving DecidableEq, Repr

/-- Modelled from the spec: FantraxPlayer.swap_starting_status of the missing
module, mirroring FantasyRosterPlayer.swap_starting_status of the sibling
package: a starter becomes a reserve and a reserve becomes a starter. -/
def swap_starting_status (p : FantraxPlayer) : FantraxPlayer :=
  if p.rostered_starter then { p with rostered_starter := false }
  else { p with rostered_starter := true }

/-- FantraxRoster.get_player (services/fantrax_roster.py): first player with
the given id; the source raises when absent, the callers modelled here only
look up members of the roster. -/
def get_player (roster : List FantraxPlayer) (player_id : String) :
    Option FantraxPlayer :=
  roster.find? fun p => p.id == player_id

/-- Count of current starters at a position
(via get_starters_by_position_short_name). -/
def count_starters_at (roster : List FantraxPlayer) (pos : Pos) : Int :=
  ((roster.filter fun p =>
    p.rostered_starter && p.rostered_position_short_name == pos).length : Int)

/-- The starter_position_counts dict of FantraxRoster.valid_substitution. -/
def starters_position_counts (roster : List FantraxPlayer) : Counts :=
  { g := count_starters_at roster .G
    d := count_starters_at roster .D
    m := count_starters_at roster .M
    f := count_starters_at roster .F }

/-- The count checks of FantraxRoster.valid_substitution after the starter
and reserve adjustments, in source order: exactly 11 total, exactly 1
goalkeeper, the three minimums, the three maximums. This validator has no
relax flag and, notably, no locked-player check. -/
def substitution_count_checks (c : Counts) : Bool × Option String :=
  if c.total ≠ 11 then (false, some "Must have exactly 11 starters")
  else if c.g ≠ 1 then (false, some "Must have exactly 1 Goalkeeper")
  else if c.d < 3 then (false, some "Must have at least 3 Defenders")
  else if c.m < 3 then (false, some "Must have at least 3 Midfielders")
  else if c.f < 1 then (false, some "Must have at least 1 Forward")
  else if c.d > 5 then (false, some "Must have at most 5 Defenders")
  else if c.m > 5 then (false, some "Must have at most 5 Midfielders")
  else if c.f > 3 then (false, some "Must have at most 3 Forwards")
  else (true, none)

/-- FantraxRoster.valid_substitution (services/fantrax_roster.py lines
96-150): resolve the two ids, require one starter and one reserve, decrement
the starter position, increment the reserve position, then run the count
checks. -/
def valid_substitution (roster : List FantraxPlayer)
    (player1_id player2_id : String) : Bool × Option String :=
  match get_player roster player1_id, get_player roster player2_id with
  | some player1, some player2 =>
    if player1.rostered_starter && !player2.rostered_starter then
      substitution_count_checks
        (((starters_position_counts roster).bump
            player1.rostered_position_short_name (-1)).bump
          player2.rostered_position_short_name 1)
    else if !player1.rostered_starter && player2.rostered_starter then
      substitution_count_checks
        (((starters_position_counts roster).bump
            player2.rostered_position_short_name (-1)).bump
          player1.rostered_position_short_name 1)
    else
      (false, some ("Player " ++ player1.name ++ " and " ++ player2.name ++
        " are both starters or reserves"))
  | _, _ => (false, some "Player not found")

/-- FantraxRoster.get_starters_at_risk_not_playing_in_gameweek: starters
that are benched, suspended, out, or an uncertain gametime decision. No
locked-player filter exists in this variant. -/
def get_starters_at_risk_not_playing_in_gameweek
    (roster : List FantraxPlayer) : List FantraxPlayer :=
  roster.filter fun p =>
    p.rostered_starter &&
      (is_benched_or_suspended_or_out p.icon_statuses ||
        is_uncertain_gametime_decision p.icon_statuses)

/-- FantraxRoster.get_reserves_starting_or_expected_to_play of this variant:
reserves expected to play or starting; unlike the sibling package there is
no locked-player filter. -/
def get_reserves_starting_or_expected_to_play
    (roster : List FantraxPlayer) : List FantraxPlayer :=
  roster.filter fun p =>
    !p.rostered_starter &&
      (is_expected_to_play p.icon_statuses || is_starting p.icon_statuses)

/-- Ascending order on value_for_gameweek (sort of the at-risk starters). -/
def val_le (a b : FantraxPlayer) : Prop :=
  a.value_for_gameweek ≤ b.value_for_gameweek

instance val_le_decidable : DecidableRel val_le := fun a b =>
  inferInstanceAs (Decidable (a.value_for_gameweek ≤ b.value_for_gameweek))

/-- Descending order on value_for_gameweek (sort of the candidate
reserves). -/
def val_ge (a b : FantraxPlayer) : Prop :=
  b.value_for_gameweek ≤ a.value_for_gameweek

instance val_ge_decidable : DecidableRel val_ge := fun a b =>
  inferInstanceAs (Decidable (b.value_for_gameweek ≤ a.value_for_gameweek))

/-- The inner loop of FantraxRoster.get_optimal_substitutions: scan the
candidate reserves in order; on the first one whose swap with the starter
validates, return it together with the list with it removed (the
reserves.remove call), and stop (the break). -/
def find_valid_reserve (roster : List FantraxPlayer)
    (starter : FantraxPlayer) :
    List FantraxPlayer → Option (FantraxPlayer × List FantraxPlayer)
  | [] => none
  | reserve :: rest =>
    if (valid_substitution roster starter.id reserve.id).1 then
      some (reserve, rest)
    else
      (find_valid_reserve roster starter rest).map fun r =>
        (r.1, reserve :: r.2)

/-- The outer loop of FantraxRoster.get_optimal_substitutions: pair each
at-risk starter with the first validating candidate, removing used
candidates; a starter with no validating candidate yields no pair. All
validations are against the roster as it was when the scan began. -/
def pair_substitutions (roster : List FantraxPlayer) :
    List FantraxPlayer → List FantraxPlayer →
    List (FantraxPlayer × FantraxPlayer)
  | [], _ => []
  | starter :: starters, reserves =>
    match find_valid_reserve roster starter reserves with
    | some r => (starter, r.1) :: pair_substitutions roster starters r.2
    | none => pair_substitutions roster starters reserves

/-- FantraxRoster.get_optimal_substitutions (services/fantrax_roster.py
lines 209-240): at-risk starters sorted ascending by value, candidate
reserves sorted descending by value, then the greedy pairing scan. -/
def get_optimal_substitutions (roster : List FantraxPlayer) :
    List (FantraxPlayer × FantraxPlayer) :=
  pair_substitutions roster
    ((get_starters_at_risk_not_playing_in_gameweek roster).insertionSort val_le)
    ((get_reserves_starting_or_expected_to_play roster).insertionSort val_ge)

/-- In-place mutation of the player with the given id, modelled by mapping
over the roster (ids are unique within a roster per the data model). -/
def toggle_player (roster : List FantraxPlayer) (player_id : String) :
    List FantraxPlayer :=
  roster.map fun q => if q.id == player_id then swap_starting_status q else q

/-- FantraxRoster.substitute_players (services/fantrax_roster.py lines
152-170): re-validate, raise on failure, otherwise toggle both players and
immediately call _sync_roster_with_fantrax. Returns the new roster and the
emitted events. -/
def substitute_players (roster : List FantraxPlayer)
    (player1_id player2_id : String) :
    Except String (List FantraxPlayer × List Ev) :=
  match valid_substitution roster player1_id player2_id with
  | (true, _) =>
    .ok (toggle_player (toggle_player roster player1_id) player2_id,
      [Ev.toggle player1_id, Ev.toggle player2_id, Ev.submit])
  | (false, msg) => .error (msg.getD "")

/-- The substitution loop of GameweekManager.make_substitutions: apply each
planned substitution in turn through substitute_players (reserve id first,
as in the source); a raised exception aborts the remaining substitutions. -/
def apply_substitutions (roster : List FantraxPlayer) :
    List (FantraxPlayer × FantraxPlayer) →
    List FantraxPlayer × List Ev
  | [] => (roster, [])
  | (starter, reserve) :: rest =>
    match substitute_players roster reserve.id starter.id with
    | .ok r =>
      let next := apply_substitutions r.1 rest
      (next.1, r.2 ++ next.2)
    | .error _ => (roster, [])

/-- GameweekManager.make_substitutions (services/gameweek_manager.py lines
37-53), its pure core: compute the optimal substitutions, then commit them
one at a time (the refresh_roster call at the start is an external read). -/
def make_substitutions (roster : List FantraxPlayer) :
    List FantraxPlayer × List Ev :=
  apply_substitutions roster (get_optimal_substitutions roster)

/-- Specification-side model for claim C7, written to the claim text: the
same scan, but each pair is committed (both starter flags toggled) before
the next at-risk starter is processed, so later validations see the updated
roster. To be compared with get_optimal_substitutions. -/
def spec_commit_scan (roster : List FantraxPlayer) :
    List FantraxPlayer → List FantraxPlayer →
    List FantraxPlayer × List (FantraxPlayer × FantraxPlayer)
  | [], _ => (roster, [])
  | starter :: starters, reserves =>
    match reserves.find?
        (fun c => (valid_substitution roster starter.id c.id).1) with
    | some c =>
      let roster2 := toggle_player (toggle_player roster starter.id) c.id
      let rest := spec_commit_scan roster2 starters
        (reserves.eraseP fun c2 => (valid_substitution roster starter.id c2.id).1)
      (rest.1, (starter, c) :: rest.2)
    | none => spec_commit_scan roster starters reserves

/-- The claim-side targeted substitution of C7: sorted scans with immediate
commits. -/
def spec_targeted_substitution (roster : List FantraxPlayer) :
    List (FantraxPlayer × FantraxPlayer) :=
  (spec_commit_scan roster
    ((get_starters_at_risk_not_playing_in_gameweek roster).insertionSort val_le)
    ((get_reserves_starting_or_expected_to_play roster).insertionSort val_ge)).2

/-- Specification-side model for the amended claim C7: the scan with the
first-validating-candidate choice expressed through find? and eraseP, all
validations against the fixed initial roster and no toggling during the
scan. To be compared with get_optimal_substitutions. -/
def spec_fixed_scan (roster : List FantraxPlayer) :
    List FantraxPlayer → List FantraxPlayer →
    List (FantraxPlayer × FantraxPlayer)
  | [], _ => []
  | starter :: starters, reserves =>
    match reserves.find?
        (fun c => (valid_substitution roster starter.id c.id).1) with
    | some c =>
      (starter, c) :: spec_fixed_scan roster starters
        (reserves.eraseP fun c2 => (valid_substitution roster starter.id c2.id).1)
    | none => spec_fixed_scan roster starters reserves

end LM

namespace Calc

/-- PremierLeagueTeam (domain/premier_league_table.py): only the rank is
consulted by the calculator. -/
structure PremierLeagueTeam where
  rank : Int
deriving DecidableEq, Repr

/-- PremierLeagueTable: a dict from team name to team entry, modelled as an
association list with distinct keys; get on a key that is absent, or on
None, yields None. -/
def premier_league_table_get (table : List (String × PremierLeagueTeam))
    (key : Option String) : Option PremierLeagueTeam :=
  match key with
  | none => none
  | some k => (table.find? fun e => e.1 == k).map fun e => e.2

/-- PlayerGameweekStats reduced to the one field the calculator reads. -/
structure PlayerGameweekStats where
  points : Rat
deriving DecidableEq, Repr

/-- BookingOddsHeadToHead (domain/booking_odds.py). -/
structure BookingOddsHeadToHead where
  home_team : Option String
  away_team : Option String
  home_team_booking_odds_outcome : Option Rat
  away_team_booking_odds_outcome : Option Rat
  draw_booking_odds_outcome : Option Rat
deriving DecidableEq, Repr

/-- Rendering of a Python value inside an f-string error message. -/
def option_str (s : Option String) : String :=
  match s with
  | none => "None"
  | some v => v

/-- The inner coefficient_calculation closure of
_calc_fixture_difficulty_coefficient_with_league_standings
(services/fantasy_value_calculator.py lines 88-89). -/
noncomputable def coefficient_calculation
    (k a team_rank opponent_rank total_teams : ℝ) : ℝ :=
  1 + k * Real.tanh (a * (team_rank - opponent_rank) / (total_teams - 1))

/-- _calc_fixture_difficulty_coefficient_with_league_standings
(services/fantasy_value_calculator.py lines 46-93): look up the team, then
the opponent, raising the corresponding lookup error when either is absent
(a player with no upcoming fixture has opponent None, which is never a
table key); otherwise the tanh coefficient with total_teams the number of
table keys. -/
noncomputable def calc_fixture_difficulty_coefficient_with_league_standings
    (player : TM.PlayerStatic) (table : List (String × PremierLeagueTeam))
    (k a : ℝ) : Except String ℝ :=
  match premier_league_table_get table player.team_name with
  | none => .error ("Team " ++ option_str player.team_name ++
      " not found in Premier League team stats")
  | some team =>
    match premier_league_table_get table player.upcoming_game_opponent with
    | none => .error ("Opponent " ++ option_str player.upcoming_game_opponent ++
        " not found in Premier League team stats")
    | some opponent =>
      .ok (coefficient_calculation k a (team.rank : ℝ) (opponent.rank : ℝ)
        (table.length : ℝ))

/-- _calc_fixture_difficulty_coefficient_with_booking_odds
(services/fantasy_value_calculator.py lines 95-163): home/away resolution
(direct name match first, then the recorded home flag, defaulting to away),
neutral 1.0 when a price is missing or the total is zero, otherwise
1 + k * (p - 0.5) * 2 with p the team share of the combined prices. The
source lowercases the recorded flag; the parser only ever stores the
lowercase strings home and away. -/
noncomputable def calc_fixture_difficulty_coefficient_with_booking_odds
    (player : TM.PlayerStatic) (odds : BookingOddsHeadToHead) (k : ℝ) : ℝ :=
  let is_home : Bool :=
    if odds.home_team == player.team_name then true
    else if odds.away_team == player.team_name then false
    else if player.upcoming_game_home_or_away == some "home" then true
    else false
  let player_team_odds := if is_home then odds.home_team_booking_odds_outcome
    else odds.away_team_booking_odds_outcome
  let opponent_team_odds := if is_home then odds.away_team_booking_odds_outcome
    else odds.home_team_booking_odds_outcome
  match player_team_odds, opponent_team_odds with
  | some p, some o =>
    let total : Rat := p + o + (odds.draw_booking_odds_outcome.getD 0)
    if total = 0 then 1
    else 1 + k * (((p / total : Rat) : ℝ) - 0.5) * 2
  | _, _ => 1

/-- calculate_fantasy_value_for_gameweek
(services/fantasy_value_calculator.py lines 14-44): the base value is the
mean of the recent gameweek points (0.0 with no history); with head-to-head
odds present the booking-odds coefficient is applied (k = 0.3), otherwise
the league-standings coefficient (k = 0.8, a = 0.4), whose lookup errors
propagate. -/
noncomputable def calculate_fantasy_value_for_gameweek
    (player : TM.PlayerStatic)
    (player_gameweek_stats : List PlayerGameweekStats)
    (premier_league_table : List (String × PremierLeagueTeam))
    (odds_h2h_data_for_upcoming_game : Option BookingOddsHeadToHead) :
    Except String ℝ :=
  let fantasy_points := player_gameweek_stats.map fun s => s.points
  let base : ℝ := if fantasy_points.isEmpty then 0
    else ((fantasy_points.sum : Rat) : ℝ) / (fantasy_points.length : ℝ)
  match odds_h2h_data_for_upcoming_game with
  | some odds =>
    .ok (base *
      calc_fixture_difficulty_coefficient_with_booking_odds player odds 0.3)
  | none =>
    match calc_fixture_difficulty_coefficient_with_league_standings
        player premier_league_table 0.8 0.4 with
    | .error e => .error e
    | .ok c => .ok (base * c)

end Calc

/-! Concrete rosters used by the counterexamples and witnesses. -/

/-- Build a team-manager roster player from the fields the claims exercise;
the name doubles as the id, no fixture and no stats history. -/
def mk_tm_player (id : String) (statuses : List String) (pos : Pos)
    (starter locked : Bool) (v : Rat) : TM.FantasyRosterPlayer :=
  { static :=
      { id := id
        name := id
        team_name := none
        upcoming_game_opponent := none
        upcoming_game_home_or_away := none
        icon_statuses := statuses
        gameweek_points := []
        rostered_position := pos
        disable_lineup_change := locked }
    rostered_starter := starter
    value_for_gameweek := v }

/-- Build a lineup-manager roster player; the name doubles as the id. -/
def mk_lm_player (id : String) (statuses : List String) (pos : Pos)
    (starter locked : Bool) (v : Rat) : LM.FantraxPlayer :=
  { id := id
    name := id
    icon_statuses := statuses
    rostered_position_short_name := pos
    rostered_starter := starter
    disable_lineup_change := locked
    value_for_gameweek := v }

/-- Counterexample roster for C2: two locked goalkeepers already in the
starting lineup; the full rebuild cannot touch them. -/
def ex_c2_roster : List TM.FantasyRosterPlayer :=
  [mk_tm_player "gkA" [] .G true true 10,
   mk_tm_player "gkB" [] .G true true 9]

/-- Witness roster for the amended C2: no locked players at all. -/
def wit_c2_roster : List TM.FantasyRosterPlayer :=
  [mk_tm_player "gk" [] .G false false 10,
   mk_tm_player "d1" [] .D false false 5]

/-- Counterexample roster for C3: a legal lineup whose weakest defender d4
is locked and out; the lineup-manager targeted path swaps it anyway. -/
def ex_c3_roster : List LM.FantraxPlayer :=
  [mk_lm_player "g1" [] .G true false 10,
   mk_lm_player "d1" [] .D true false 8,
   mk_lm_player "d2" [] .D true false 8,
   mk_lm_player "d3" [] .D true false 8,
   mk_lm_player "d4" [STATUS_OUT] .D true true 3,
   mk_lm_player "m1" [] .M true false 7,
   mk_lm_player "m2" [] .M true false 7,
   mk_lm_player "m3" [] .M true false 7,
   mk_lm_player "f1" [] .F true false 6,
   mk_lm_player "f2" [] .F true false 6,
   mk_lm_player "f3" [] .F true false 6,
   mk_lm_player "d5" [STATUS_EXPECTED_TO_PLAY] .D false false 9]

/-- Witness swap list for the amended C3: a single locked player. -/
def wit_c3_locked : TM.FantasyRosterPlayer :=
  mk_tm_player "L" [] .D true true 4

/-- Counterexample player for C4: no upcoming fixture (opponent None). -/
def ex_c4_player : TM.PlayerStatic :=
  { id := "p"
    name := "p"
    team_name := some "A"
    upcoming_game_opponent := none
    upcoming_game_home_or_away := none
    icon_statuses := []
    gameweek_points := []
    rostered_position := .M
    disable_lineup_change := false }

/-- Counterexample standings for C4: the player's team is in the table. -/
def ex_c4_table : List (String × Calc.PremierLeagueTeam) :=
  [("A", { rank := 1 }), ("B", { rank := 2 })]

/-- Counterexample history for C4: a nonzero base value. -/
def ex_c4_stats : List Calc.PlayerGameweekStats :=
  [{ points := 4 }, { points := 6 }]

/-- Counterexample roster for C6: two at-risk starters with same-position
replacements, so the targeted path commits two substitutions and therefore
submits twice in one cycle. -/
def ex_c6_roster : List LM.FantraxPlayer :=
  [mk_lm_player "g1" [] .G true false 10,
   mk_lm_player "d1" [] .D true false 8,
   mk_lm_player "d2" [] .D true false 8,
   mk_lm_player "d3" [] .D true false 8,
   mk_lm_player "d4" [STATUS_OUT] .D true false 5,
   mk_lm_player "m1" [] .M true false 7,
   mk_lm_player "m2" [] .M true false 7,
   mk_lm_player "m3" [] .M true false 7,
   mk_lm_player "m4" [STATUS_OUT] .M true false 6,
   mk_lm_player "f1" [] .F true false 6,
   mk_lm_player "f2" [] .F true false 6,
   mk_lm_player "d5" [STATUS_EXPECTED_TO_PLAY] .D false false 50,
   mk_lm_player "m5" [STATUS_EXPECTED_TO_PLAY] .M false false 40]

/-- Counterexample roster for C7: two at-risk defenders and two midfielder
candidates; against the fixed initial roster both swaps validate, but after
committing the first the second would drop the defenders below the minimum. -/
def ex_c7_roster : List LM.FantraxPlayer :=
  [mk_lm_player "g1" [] .G true false 10,
   mk_lm_player "d1" [] .D true false 8,
   mk_lm_player "d2" [] .D true false 8,
   mk_lm_player "d3" [STATUS_OUT] .D true false 1,
   mk_lm_player "d4" [STATUS_OUT] .D true false 2,
   mk_lm_player "m1" [] .M true false 7,
   mk_lm_player "m2" [] .M true false 7,
   mk_lm_player "m3" [] .M true false 7,
   mk_lm_player "f1" [] .F true false 6,
   mk_lm_player "f2" [] .F true false 6,
   mk_lm_player "f3" [] .F true false 6,
   mk_lm_player "m4" [STATUS_EXPECTED_TO_PLAY] .M false false 50,
   mk_lm_player "m5" [STATUS_EXPECTED_TO_PLAY] .M false false 40]

/-- Witness player for C9: a reserve with an empty status set. -/
def wit_c9_player : TM.FantasyRosterPlayer :=
  mk_tm_player "r" [] .D false false 7

/-! Helper lemmas. -/

theorem tm_apply_swap_players_eq (swaps : List TM.FantasyRosterPlayer)
    (c : Counts) :
    TM.apply_swap_players c swaps =
      match swaps.find? (fun p => p.static.disable_lineup_change) with
      | some p => .error (TM.disabled_msg p)
      | none => .ok (swaps.foldl TM.Counts.adjust c) := by
  induction swaps generalizing c with
  | nil => rfl
  | cons p rest ih =>
    cases h : p.static.disable_lineup_change with
    | true => simp [TM.apply_swap_players, h, List.find?_cons]
    | false => simp [TM.apply_swap_players, h, List.find?_cons, ih]

theorem tm_apply_swap_players_state_spec (swaps : List TM.FantasyRosterPlayer)
    (c : Counts) (roster : List TM.FantasyRosterPlayer) :
    TM.apply_swap_players_state c roster swaps =
      (TM.apply_swap_players c swaps, roster) := by
  induction swaps generalizing c with
  | nil => rfl
  | cons p rest ih =>
    cases h : p.static.disable_lineup_change with
    | true => simp [TM.apply_swap_players, TM.apply_swap_players_state, h]
    | false => simp [TM.apply_swap_players, TM.apply_swap_players_state, h, ih]

theorem status_contains_iff (L : List String) (s : String) :
    L.contains s = true ↔ s ∈ L := by
  simp [List.contains]

theorem is_starting_false_iff (L : List String) :
    is_starting L = false ↔ STATUS_STARTING ∉ L := by
  rw [is_starting, ← Bool.not_eq_true, status_contains_iff]

theorem is_uncertain_false_iff (L : List String) :
    is_uncertain_gametime_decision L = false ↔
      STATUS_UNCERTAIN_GAMETIME_DECISION ∉ L := by
  rw [is_uncertain_gametime_decision, ← Bool.not_eq_true, status_contains_iff]

theorem is_expected_false_iff (L : List String) :
    is_expected_to_play L = false ↔
      L ≠ [] ∧ STATUS_EXPECTED_TO_PLAY ∉ L := by
  rw [is_expected_to_play]
  cases L with
  | nil => simp
  | cons a as =>
    simp only [List.isEmpty_cons, Bool.false_eq_true, if_false]
    rw [← Bool.not_eq_true, status_contains_iff]
    simp

theorem is_benched_false_iff (L : List String) :
    is_benched_or_suspended_or_out L = false ↔
      STATUS_BENCHED ∉ L ∧ STATUS_SUSPENDED ∉ L ∧ STATUS_OUT ∉ L ∧
        STATUS_OUT_FOR_NEXT_GAME ∉ L := by
  rw [is_benched_or_suspended_or_out, List.any_eq_false]
  constructor
  · intro h
    refine ⟨fun hm => h _ hm ?_, fun hm => h _ hm ?_, fun hm => h _ hm ?_,
      fun hm => h _ hm ?_⟩ <;> simp
  · rintro ⟨h1, h2, h3, h4⟩ x hx hor
    simp only [Bool.or_eq_true, beq_iff_eq] at hor
    rcases hor with ((he | he) | he) | he <;> subst he
    · exact h1 hx
    · exact h2 hx
    · exact h3 hx
    · exact h4 hx

theorem tm_cls_manager_eq_three_iff (st : TM.PlayerStatic) :
    TM.cls_manager st = 3 ↔
      st.icon_statuses ≠ [] ∧
        ∀ s ∈ st.icon_statuses, s ∉ recognized_statuses := by
  unfold TM.cls_manager
  constructor
  · intro h3
    cases hexp : is_expected_to_play st.icon_statuses with
    | true => simp [hexp] at h3
    | false =>
      cases hstart : is_starting st.icon_statuses with
      | true => simp [hexp, hstart] at h3
      | false =>
        cases hunc : is_uncertain_gametime_decision st.icon_statuses with
        | true => simp [hexp, hstart, hunc] at h3
        | false =>
          cases hben : is_benched_or_suspended_or_out st.icon_statuses with
          | true => simp [hexp, hstart, hunc, hben] at h3
          | false =>
            rw [is_expected_false_iff] at hexp
            rw [is_starting_false_iff] at hstart
            rw [is_uncertain_false_iff] at hunc
            rw [is_benched_false_iff] at hben
            refine ⟨hexp.1, fun s hs hrec => ?_⟩
            simp only [recognized_statuses, List.mem_cons,
              List.not_mem_nil, or_false] at hrec
            rcases hrec with he | he | he | he | he | he | he <;> subst he
            · exact hstart hs
            · exact hben.1 hs
            · exact hben.2.2.1 hs
            · exact hexp.2 hs
            · exact hben.2.2.2 hs
            · exact hunc hs
            · exact hben.2.1 hs
  · rintro ⟨hne, hall⟩
    have hmem : ∀ x ∈ recognized_statuses, x ∉ st.icon_statuses :=
      fun x hx hm => hall x hm hx
    have hexp : is_expected_to_play st.icon_statuses = false := by
      rw [is_expected_false_iff]
      exact ⟨hne, hmem _ (by simp [recognized_statuses])⟩
    have hstart : is_starting st.icon_statuses = false := by
      rw [is_starting_false_iff]
      exact hmem _ (by simp [recognized_statuses])
    have hunc : is_uncertain_gametime_decision st.icon_statuses = false := by
      rw [is_uncertain_false_iff]
      exact hmem _ (by simp [recognized_statuses])
    have hben : is_benched_or_suspended_or_out st.icon_statuses = false := by
      rw [is_benched_false_iff]
      exact ⟨hmem _ (by simp [recognized_statuses]),
        hmem _ (by simp [recognized_statuses]),
        hmem _ (by simp [recognized_statuses]),
        hmem _ (by simp [recognized_statuses])⟩
    simp [hexp, hstart, hunc, hben]

theorem tm_count_append (l1 l2 : List TM.FantasyRosterPlayer) (pos : Pos) :
    TM.count_starters_at (l1 ++ l2) pos =
      TM.count_starters_at l1 pos + TM.count_starters_at l2 pos := by
  simp [TM.count_starters_at, List.filter_append]

theorem tm_count_cons (x : TM.FantasyRosterPlayer)
    (xs : List TM.FantasyRosterPlayer) (pos : Pos) :
    TM.count_starters_at (x :: xs) pos =
      TM.count_starters_at [x] pos + TM.count_starters_at xs pos := by
  simpa using tm_count_append [x] xs pos

theorem tm_count_singleton (p : TM.FantasyRosterPlayer) (pos : Pos) :
    TM.count_starters_at [p] pos =
      if p.rostered_starter = true ∧ p.static.rostered_position = pos then 1
      else 0 := by
  by_cases h1 : p.rostered_starter = true
  · by_cases h2 : p.static.rostered_position = pos
    · simp [TM.count_starters_at, List.filter_cons, h1, h2]
    · have hb : (p.static.rostered_position == pos) = false := by
        simp [h2]
      simp [TM.count_starters_at, List.filter_cons, h1, hb, h2]
  · simp [TM.count_starters_at, List.filter_cons, h1]

theorem tm_count_middle (l1 l2 : List TM.FantasyRosterPlayer)
    (q p : TM.FantasyRosterPlayer) (pos : Pos) :
    TM.count_starters_at (l1 ++ q :: l2) pos =
      TM.count_starters_at (l1 ++ p :: l2) pos +
        TM.count_starters_at [q] pos - TM.count_starters_at [p] pos := by
  rw [show l1 ++ q :: l2 = l1 ++ [q] ++ l2 by simp,
    show l1 ++ p :: l2 = l1 ++ [p] ++ l2 by simp]
  rw [tm_count_append, tm_count_append, tm_count_append, tm_count_append]
  ring

theorem tm_counts_promote (l1 l2 : List TM.FantasyRosterPlayer)
    (p : TM.FantasyRosterPlayer) (hs : p.rostered_starter = false) :
    TM.starters_position_counts (l1 ++ TM.change_to_starter p :: l2) =
      (TM.starters_position_counts (l1 ++ p :: l2)).bump
        p.static.rostered_position 1 := by
  have hone : ∀ pos,
      TM.count_starters_at (l1 ++ TM.change_to_starter p :: l2) pos =
        TM.count_starters_at (l1 ++ p :: l2) pos +
          (if p.static.rostered_position = pos then 1 else 0) := by
    intro pos
    rw [tm_count_middle l1 l2 (TM.change_to_starter p) p pos,
      tm_count_singleton, tm_count_singleton, hs]
    simp [TM.change_to_starter]
  cases hpos : p.static.rostered_position <;>
    simp [TM.starters_position_counts, Counts.bump, hone, hpos]

theorem tm_checks_true_caps {c : Counts}
    (hv : (TM.position_count_checks c true).1 = true) : TM.caps_ok c := by
  unfold TM.position_count_checks at hv
  split_ifs at hv
  exact ⟨by omega, by omega, by omega, by omega, by omega⟩

theorem tm_valid_single_unfold (r todo : List TM.FantasyRosterPlayer)
    (p : TM.FantasyRosterPlayer) (hl : ¬p.static.disable_lineup_change = true)
    (hs : p.rostered_starter = false) :
    TM.valid_substitutions (r ++ p :: todo) [p] true =
      TM.position_count_checks
        ((TM.starters_position_counts (r ++ p :: todo)).bump
          p.static.rostered_position 1) true := by
  unfold TM.valid_substitutions TM.apply_swap_players
  simp [hl, TM.apply_swap_players, TM.Counts.adjust, hs]

theorem tm_promote_players_loop_caps (todo : List TM.FantasyRosterPlayer) :
    ∀ done : List TM.FantasyRosterPlayer,
      TM.caps_ok (TM.starters_position_counts (done ++ todo)) →
      TM.caps_ok
        (TM.starters_position_counts (TM.promote_players_loop done todo)) := by
  induction todo with
  | nil => intro done h; simpa [TM.promote_players_loop] using h
  | cons p todo ih =>
    intro done h
    unfold TM.promote_players_loop
    by_cases hl : p.static.disable_lineup_change = true
    · rw [if_pos hl]
      exact ih (done ++ [p]) (by simpa using h)
    · rw [if_neg hl]
      by_cases hv : (TM.valid_substitutions (done ++ p :: todo) [p] true).1 = true
      · rw [if_pos hv]
        apply ih (done ++ [TM.change_to_starter p])
        rw [show (done ++ [TM.change_to_starter p]) ++ todo =
          done ++ TM.change_to_starter p :: todo by simp]
        cases hs : p.rostered_starter with
        | true =>
          have hei : TM.change_to_starter p = p := by
            cases p with
            | mk st rs v => simp_all [TM.change_to_starter]
          rw [hei]
          simpa using h
        | false =>
          rw [tm_counts_promote done todo p hs]
          rw [tm_valid_single_unfold done todo p hl hs] at hv
          exact tm_checks_true_caps hv
      · rw [if_neg hv]
        exact ih (done ++ [p]) (by simpa using h)

theorem tm_count_perm {l l2 : List TM.FantasyRosterPlayer}
    (h : l.Perm l2) (pos : Pos) :
    TM.count_starters_at l pos = TM.count_starters_at l2 pos := by
  simp [TM.count_starters_at, (h.filter _).length_eq]

theorem tm_counts_perm {l l2 : List TM.FantasyRosterPlayer} (h : l.Perm l2) :
    TM.starters_position_counts l = TM.starters_position_counts l2 := by
  simp [TM.starters_position_counts, tm_count_perm h]

theorem tm_partition3_perm {α : Type} (cls : α → Nat) (l : List α) :
    ((TM.partition3 cls l).1 ++ (TM.partition3 cls l).2.1 ++
      (TM.partition3 cls l).2.2).Perm l := by
  induction l with
  | nil => simp [TM.partition3]
  | cons a rest ih =>
    unfold TM.partition3
    rcases hcls : cls a with _ | n
    · simpa using ih.cons a
    · rcases n with _ | m
      · rw [show (TM.partition3 cls rest).1 ++
          (a :: (TM.partition3 cls rest).2.1) ++
          (TM.partition3 cls rest).2.2 =
          (TM.partition3 cls rest).1 ++
            a :: ((TM.partition3 cls rest).2.1 ++
              (TM.partition3 cls rest).2.2) by simp]
        refine List.Perm.trans List.perm_middle ?_
        refine List.Perm.cons a ?_
        simpa [List.append_assoc] using ih
      · refine List.Perm.trans List.perm_middle ?_
        exact List.Perm.cons a ih

theorem tm_sort_players_perm (cls : TM.PlayerStatic → Nat)
    (l : List TM.FantasyRosterPlayer) :
    (TM.sort_players_by_gameweek_status_and_fantasy_value cls l).Perm l := by
  unfold TM.sort_players_by_gameweek_status_and_fantasy_value
  refine List.Perm.trans ?_ (tm_partition3_perm (fun p => cls p.static) l)
  exact List.Perm.append
    (List.Perm.append (List.perm_insertionSort _ _)
      (List.perm_insertionSort _ _))
    (List.perm_insertionSort _ _)

theorem tm_count_reset (l : List TM.FantasyRosterPlayer) (pos : Pos) :
    TM.count_starters_at (TM.reset_unlocked_to_reserve l) pos =
      TM.count_starters_at
        (l.filter fun p => p.static.disable_lineup_change) pos := by
  induction l with
  | nil => rfl
  | cons p rest ih =>
    by_cases hl : p.static.disable_lineup_change = true
    · rw [show TM.reset_unlocked_to_reserve (p :: rest) =
        p :: TM.reset_unlocked_to_reserve rest by
          simp [TM.reset_unlocked_to_reserve, hl]]
      rw [show (p :: rest).filter (fun p => p.static.disable_lineup_change) =
        p :: rest.filter (fun p => p.static.disable_lineup_change) by
          simp [List.filter_cons, hl]]
      rw [tm_count_cons p (TM.reset_unlocked_to_reserve rest) pos,
        tm_count_cons p (rest.filter fun p => p.static.disable_lineup_change)
          pos, ih]
    · rw [show TM.reset_unlocked_to_reserve (p :: rest) =
        TM.change_to_reserve p :: TM.reset_unlocked_to_reserve rest by
          simp [TM.reset_unlocked_to_reserve, hl]]
      rw [show (p :: rest).filter (fun p => p.static.disable_lineup_change) =
        rest.filter (fun p => p.static.disable_lineup_change) by
          simp [List.filter_cons, hl]]
      rw [tm_count_cons (TM.change_to_reserve p)
        (TM.reset_unlocked_to_reserve rest) pos, ih, tm_count_singleton]
      simp [TM.change_to_reserve]

theorem tm_counts_reset (l : List TM.FantasyRosterPlayer) :
    TM.starters_position_counts (TM.reset_unlocked_to_reserve l) =
      TM.locked_starter_counts l := by
  simp [TM.starters_position_counts, TM.locked_starter_counts, tm_count_reset]

theorem tm_locked_counts_perm {l l2 : List TM.FantasyRosterPlayer}
    (h : l.Perm l2) :
    TM.locked_starter_counts l = TM.locked_starter_counts l2 := by
  unfold TM.locked_starter_counts
  exact tm_counts_perm (h.filter _)

theorem tm_locked_counts_score (calculate_value : TM.PlayerStatic → Rat)
    (l : List TM.FantasyRosterPlayer) :
    TM.locked_starter_counts
        (l.map fun p => { p with value_for_gameweek := calculate_value p.static }) =
      TM.locked_starter_counts l := by
  unfold TM.locked_starter_counts
  rw [List.filter_map]
  simp only [TM.starters_position_counts, TM.count_starters_at,
    List.filter_map, List.length_map, Function.comp]
  rfl

theorem tm_pi_change_to_starter (p : TM.FantasyRosterPlayer)
    (hl : p.static.disable_lineup_change = false) :
    TM.pi_proj (TM.change_to_starter p) = TM.pi_proj p := by
  simp [TM.pi_proj, TM.change_to_starter, hl]

theorem tm_promote_players_loop_pi (todo : List TM.FantasyRosterPlayer) :
    ∀ done : List TM.FantasyRosterPlayer,
      (TM.promote_players_loop done todo).map TM.pi_proj =
        done.map TM.pi_proj ++ todo.map TM.pi_proj := by
  induction todo with
  | nil => intro done; simp [TM.promote_players_loop]
  | cons p todo ih =>
    intro done
    unfold TM.promote_players_loop
    by_cases hl : p.static.disable_lineup_change = true
    · rw [if_pos hl, ih]
      simp
    · rw [if_neg hl]
      by_cases hv :
          (TM.valid_substitutions (done ++ p :: todo) [p] true).1 = true
      · rw [if_pos hv, ih]
        have hl2 : p.static.disable_lineup_change = false := by simpa using hl
        simp [tm_pi_change_to_starter p hl2]
      · rw [if_neg hv, ih]
        simp

theorem map_eq_mem_transfer {α β : Type} (f : α → β) {l m : List α}
    (h : l.map f = m.map f) {x : α} (hx : x ∈ l) :
    ∃ y ∈ m, f y = f x := by
  have hfx : f x ∈ m.map f := by
    rw [← h]
    exact List.mem_map_of_mem f hx
  rcases List.mem_map.1 hfx with ⟨y, hy, he⟩
  exact ⟨y, hy, he⟩

theorem tm_score_fix (calculate_value : TM.PlayerStatic → Rat)
    (l : List TM.FantasyRosterPlayer)
    (h : ∀ p ∈ l, p.value_for_gameweek = calculate_value p.static) :
    (l.map fun p =>
      { p with value_for_gameweek := calculate_value p.static }) = l := by
  induction l with
  | nil => rfl
  | cons p rest ih =>
    have hp := h p (List.mem_cons_self p rest)
    have hrest := ih fun q hq => h q (List.mem_cons_of_mem p hq)
    rw [List.map_cons, hrest]
    cases p with
    | mk st rs v =>
      simp at hp
      simp [hp]

theorem tm_partition3_fst_cls {α : Type} (cls : α → Nat) (l : List α) :
    ∀ x ∈ (TM.partition3 cls l).1, cls x = 0 := by
  induction l with
  | nil => simp [TM.partition3]
  | cons a rest ih =>
    unfold TM.partition3
    rcases hcls : cls a with _ | n
    · intro x hx
      rcases List.mem_cons.1 hx with he | hmem
      · rw [he, hcls]
      · exact ih x hmem
    · rcases n with _ | m
      · exact ih
      · exact ih

theorem tm_partition3_snd_cls {α : Type} (cls : α → Nat) (l : List α) :
    ∀ x ∈ (TM.partition3 cls l).2.1, cls x = 1 := by
  induction l with
  | nil => simp [TM.partition3]
  | cons a rest ih =>
    unfold TM.partition3
    rcases hcls : cls a with _ | n
    · exact ih
    · rcases n with _ | m
      · intro x hx
        rcases List.mem_cons.1 hx with he | hmem
        · rw [he, hcls]
        · exact ih x hmem
      · exact ih

theorem tm_partition3_thd_cls {α : Type} (cls : α → Nat) (l : List α) :
    ∀ x ∈ (TM.partition3 cls l).2.2, 2 ≤ cls x := by
  induction l with
  | nil => simp [TM.partition3]
  | cons a rest ih =>
    unfold TM.partition3
    rcases hcls : cls a with _ | n
    · exact ih
    · rcases n with _ | m
      · exact ih
      · intro x hx
        rcases List.mem_cons.1 hx with he | hmem
        · rw [he, hcls]
          omega
        · exact ih x hmem

theorem tm_partition3_append {α : Type} (cls : α → Nat) (l1 l2 : List α) :
    TM.partition3 cls (l1 ++ l2) =
      ((TM.partition3 cls l1).1 ++ (TM.partition3 cls l2).1,
        (TM.partition3 cls l1).2.1 ++ (TM.partition3 cls l2).2.1,
        (TM.partition3 cls l1).2.2 ++ (TM.partition3 cls l2).2.2) := by
  induction l1 with
  | nil => simp [TM.partition3]
  | cons a rest ih =>
    rw [List.cons_append]
    rcases hcls : cls a with _ | n
    · simp [TM.partition3, hcls, ih]
    · rcases n with _ | m
      · simp [TM.partition3, hcls, ih]
      · simp [TM.partition3, hcls, ih]

theorem tm_partition3_all0 {α : Type} (cls : α → Nat) (l : List α)
    (h : ∀ x ∈ l, cls x = 0) : TM.partition3 cls l = (l, [], []) := by
  induction l with
  | nil => rfl
  | cons a rest ih =>
    simp [TM.partition3, h a (List.mem_cons_self a rest),
      ih fun x hx => h x (List.mem_cons_of_mem a hx)]

theorem tm_partition3_all1 {α : Type} (cls : α → Nat) (l : List α)
    (h : ∀ x ∈ l, cls x = 1) : TM.partition3 cls l = ([], l, []) := by
  induction l with
  | nil => rfl
  | cons a rest ih =>
    simp [TM.partition3, h a (List.mem_cons_self a rest),
      ih fun x hx => h x (List.mem_cons_of_mem a hx)]

theorem tm_partition3_all2 {α : Type} (cls : α → Nat) (l : List α)
    (h : ∀ x ∈ l, 2 ≤ cls x) : TM.partition3 cls l = ([], [], l) := by
  induction l with
  | nil => rfl
  | cons a rest ih =>
    have ha := h a (List.mem_cons_self a rest)
    rcases hcls : cls a with _ | n
    · omega
    · rcases n with _ | m
      · omega
      · simp [TM.partition3, hcls,
          ih fun x hx => h x (List.mem_cons_of_mem a hx)]

theorem tm_sort_players_idem (cls : TM.PlayerStatic → Nat)
    (l : List TM.FantasyRosterPlayer) :
    TM.sort_players_by_gameweek_status_and_fantasy_value cls
        (TM.sort_players_by_gameweek_status_and_fantasy_value cls l) =
      TM.sort_players_by_gameweek_status_and_fantasy_value cls l := by
  unfold TM.sort_players_by_gameweek_status_and_fantasy_value
  have hs1 := List.sorted_insertionSort TM.val_ge
    (TM.partition3 (fun p => cls p.static) l).1
  have hs2 := List.sorted_insertionSort TM.val_ge
    (TM.partition3 (fun p => cls p.static) l).2.1
  have hs3 := List.sorted_insertionSort TM.val_ge
    (TM.partition3 (fun p => cls p.static) l).2.2
  have hm1 : ∀ x ∈ (TM.partition3 (fun p => cls p.static) l).1.insertionSort
      TM.val_ge, cls x.static = 0 := fun x hx =>
    tm_partition3_fst_cls _ l x ((List.mem_insertionSort _).1 hx)
  have hm2 : ∀ x ∈ (TM.partition3 (fun p => cls p.static) l).2.1.insertionSort
      TM.val_ge, cls x.static = 1 := fun x hx =>
    tm_partition3_snd_cls _ l x ((List.mem_insertionSort _).1 hx)
  have hm3 : ∀ x ∈ (TM.partition3 (fun p => cls p.static) l).2.2.insertionSort
      TM.val_ge, 2 ≤ cls x.static := fun x hx =>
    tm_partition3_thd_cls _ l x ((List.mem_insertionSort _).1 hx)
  rw [tm_partition3_append, tm_partition3_append,
    tm_partition3_all0 _ _ hm1, tm_partition3_all1 _ _ hm2,
    tm_partition3_all2 _ _ hm3]
  simp [hs1.insertionSort_eq, hs2.insertionSort_eq, hs3.insertionSort_eq]

theorem tm_partition3_map {α β : Type} (f : α → β) (clsa : α → Nat)
    (clsb : β → Nat) (hcls : ∀ a, clsb (f a) = clsa a) (l : List α) :
    TM.partition3 clsb (l.map f) =
      ((TM.partition3 clsa l).1.map f, (TM.partition3 clsa l).2.1.map f,
        (TM.partition3 clsa l).2.2.map f) := by
  induction l with
  | nil => rfl
  | cons a rest ih =>
    rw [List.map_cons]
    rcases hcls2 : clsa a with _ | n
    · simp [TM.partition3, hcls a, hcls2, ih]
    · rcases n with _ | m
      · simp [TM.partition3, hcls a, hcls2, ih]
      · simp [TM.partition3, hcls a, hcls2, ih]

theorem tm_pi_sort_commute (cls : TM.PlayerStatic → Nat)
    (l : List TM.FantasyRosterPlayer) :
    (TM.sort_players_by_gameweek_status_and_fantasy_value cls l).map
        TM.pi_proj =
      TM.pi_sort cls (l.map TM.pi_proj) := by
  unfold TM.sort_players_by_gameweek_status_and_fantasy_value TM.pi_sort
  rw [tm_partition3_map TM.pi_proj (fun p => cls p.static)
    (fun x => cls x.1) (fun a => rfl) l]
  rw [List.map_append, List.map_append]
  rw [List.map_insertionSort TM.val_ge TM.pi_val_ge TM.pi_proj _
      fun a _ b _ => Iff.rfl,
    List.map_insertionSort TM.val_ge TM.pi_val_ge TM.pi_proj _
      fun a _ b _ => Iff.rfl,
    List.map_insertionSort TM.val_ge TM.pi_val_ge TM.pi_proj _
      fun a _ b _ => Iff.rfl]

theorem tm_reset_pi (l : List TM.FantasyRosterPlayer) :
    (TM.reset_unlocked_to_reserve l).map TM.pi_proj = l.map TM.pi_proj := by
  unfold TM.reset_unlocked_to_reserve
  rw [List.map_map]
  apply List.map_congr_left
  intro p _
  by_cases hl : p.static.disable_lineup_change = true
  · simp [Function.comp, hl]
  · simp only [Bool.not_eq_true] at hl
    simp [Function.comp, hl, TM.pi_proj, TM.change_to_reserve]

theorem tm_reset_eq_of_pi {l m : List TM.FantasyRosterPlayer}
    (h : l.map TM.pi_proj = m.map TM.pi_proj) :
    TM.reset_unlocked_to_reserve l = TM.reset_unlocked_to_reserve m := by
  induction l generalizing m with
  | nil =>
    cases m with
    | nil => rfl
    | cons b mb => simp at h
  | cons a la ih =>
    cases m with
    | nil => simp at h
    | cons b mb =>
      rw [List.map_cons, List.map_cons] at h
      have hhead := List.head_eq_of_cons_eq h
      have htail := List.tail_eq_of_cons_eq h
      unfold TM.reset_unlocked_to_reserve
      rw [List.map_cons, List.map_cons]
      have hrest := ih htail
      unfold TM.reset_unlocked_to_reserve at hrest
      rw [hrest]
      cases a with
      | mk sa ra va =>
        cases b with
        | mk sb rb vb =>
          simp only [TM.pi_proj, Prod.mk.injEq] at hhead
          obtain ⟨hstat, hval, hflag⟩ := hhead
          subst hstat
          subst hval
          by_cases hl : sa.disable_lineup_change = true
          · rw [if_pos hl, if_pos hl] at hflag
            simp at hflag
            simp [hl, hflag]
          · simp only [Bool.not_eq_true] at hl
            simp [hl, TM.change_to_reserve]

theorem tm_locked_idflag_of_pi {l m : List TM.FantasyRosterPlayer}
    (h : l.map TM.pi_proj = m.map TM.pi_proj) :
    (l.filter fun q => q.static.disable_lineup_change).map
        (fun q => (q.static.id, q.rostered_starter)) =
      (m.filter fun q => q.static.disable_lineup_change).map
        (fun q => (q.static.id, q.rostered_starter)) := by
  induction l generalizing m with
  | nil =>
    cases m with
    | nil => rfl
    | cons b mb => simp at h
  | cons a la ih =>
    cases m with
    | nil => simp at h
    | cons b mb =>
      rw [List.map_cons, List.map_cons] at h
      have hhead := List.head_eq_of_cons_eq h
      have htail := List.tail_eq_of_cons_eq h
      have hrest := ih htail
      cases a with
      | mk sa ra va =>
        cases b with
        | mk sb rb vb =>
          simp only [TM.pi_proj, Prod.mk.injEq] at hhead
          obtain ⟨hstat, _, hflag⟩ := hhead
          subst hstat
          by_cases hl : sa.disable_lineup_change = true
          · rw [if_pos hl, if_pos hl] at hflag
            simp only [Option.some.injEq] at hflag
            simp [List.filter_cons, hl, hflag, hrest]
          · simp only [Bool.not_eq_true] at hl
            simp [List.filter_cons, hl, hrest]

theorem tm_reset_locked_filter (l : List TM.FantasyRosterPlayer) :
    (TM.reset_unlocked_to_reserve l).filter
        (fun q => q.static.disable_lineup_change) =
      l.filter fun q => q.static.disable_lineup_change := by
  induction l with
  | nil => rfl
  | cons p rest ih =>
    by_cases hl : p.static.disable_lineup_change = true
    · rw [show TM.reset_unlocked_to_reserve (p :: rest) =
        p :: TM.reset_unlocked_to_reserve rest by
          simp [TM.reset_unlocked_to_reserve, hl]]
      simp [List.filter_cons, hl, ih]
    · simp only [Bool.not_eq_true] at hl
      rw [show TM.reset_unlocked_to_reserve (p :: rest) =
        TM.change_to_reserve p :: TM.reset_unlocked_to_reserve rest by
          simp [TM.reset_unlocked_to_reserve, hl]]
      simp [List.filter_cons, hl, TM.change_to_reserve, ih]

theorem tm_score_locked_idflag (calculate_value : TM.PlayerStatic → Rat)
    (l : List TM.FantasyRosterPlayer) :
    ((l.map fun p =>
        { p with value_for_gameweek := calculate_value p.static }).filter
        (fun q => q.static.disable_lineup_change)).map
        (fun q => (q.static.id, q.rostered_starter)) =
      (l.filter fun q => q.static.disable_lineup_change).map
        (fun q => (q.static.id, q.rostered_starter)) := by
  rw [List.filter_map, List.map_map]
  rfl

theorem lm_find_valid_reserve_eq (roster : List LM.FantraxPlayer)
    (starter : LM.FantraxPlayer) (cands : List LM.FantraxPlayer) :
    LM.find_valid_reserve roster starter cands =
      match cands.find?
          (fun c => (LM.valid_substitution roster starter.id c.id).1) with
      | some c =>
        some (c, cands.eraseP
          fun c2 => (LM.valid_substitution roster starter.id c2.id).1)
      | none => none := by
  induction cands with
  | nil => rfl
  | cons c rest ih =>
    by_cases hv : (LM.valid_substitution roster starter.id c.id).1 = true
    · simp [LM.find_valid_reserve, hv, List.find?_cons, List.eraseP_cons]
    · simp only [LM.find_valid_reserve, hv, if_false, List.find?_cons_of_neg,
        List.eraseP_cons, ih, Bool.false_eq_true]
      cases h2 : rest.find?
          (fun c2 => (LM.valid_substitution roster starter.id c2.id).1) with
      | none => simp [h2, hv]
      | some c2 => simp [h2, hv]

theorem lm_pair_eq_fixed (roster : List LM.FantraxPlayer) :
    ∀ starters cands : List LM.FantraxPlayer,
      LM.pair_substitutions roster starters cands =
        LM.spec_fixed_scan roster starters cands := by
  intro starters
  induction starters with
  | nil => intro cands; rfl
  | cons st sts ih =>
    intro cands
    unfold LM.pair_substitutions LM.spec_fixed_scan
    rw [lm_find_valid_reserve_eq]
    cases h : cands.find?
        (fun c => (LM.valid_substitution roster st.id c.id).1) with
    | none => simpa using ih cands
    | some c => simpa using ih _

theorem tm_reset_events_no_submit (l : List TM.FantasyRosterPlayer) :
    Ev.submit ∉ TM.reset_events l := by
  simp [TM.reset_events]

theorem tm_promote_events_no_submit (todo : List TM.FantasyRosterPlayer) :
    ∀ done : List TM.FantasyRosterPlayer,
      Ev.submit ∉ (TM.promote_players_loop_events done todo).2 := by
  induction todo with
  | nil => intro done; simp [TM.promote_players_loop_events]
  | cons p todo ih =>
    intro done
    unfold TM.promote_players_loop_events
    by_cases hl : p.static.disable_lineup_change = true
    · rw [if_pos hl]
      exact ih (done ++ [p])
    · rw [if_neg hl]
      by_cases hv :
          (TM.valid_substitutions (done ++ p :: todo) [p] true).1 = true
      · rw [if_pos hv]
        simpa using ih (done ++ [TM.change_to_starter p])
      · rw [if_neg hv]
        exact ih (done ++ [p])

theorem lm_apply_substitutions_blocks
    (pairs : List (LM.FantraxPlayer × LM.FantraxPlayer)) :
    ∀ roster : List LM.FantraxPlayer,
      ∃ ps : List (String × String),
        (LM.apply_substitutions roster pairs).2 =
          ps.foldr (fun pr acc =>
            Ev.toggle pr.1 :: Ev.toggle pr.2 :: Ev.submit :: acc) [] := by
  induction pairs with
  | nil => intro roster; exact ⟨[], rfl⟩
  | cons pr rest ih =>
    intro roster
    obtain ⟨starter, reserve⟩ := pr
    unfold LM.apply_substitutions LM.substitute_players
    cases hv : LM.valid_substitution roster reserve.id starter.id with
    | mk b msg =>
      cases b with
      | true =>
        obtain ⟨ps, hps⟩ := ih
          (LM.toggle_player (LM.toggle_player roster reserve.id) starter.id)
        refine ⟨(reserve.id, starter.id) :: ps, ?_⟩
        simp [hps]
      | false => exact ⟨[], rfl⟩

/-! Claim theorems. -/

/-- C1: for every roster and every list of toggled players, the substitution
validator evaluates its rules in the fixed order: per-player locked check
(failing immediately with a per-player message), then total starters
greater than 11 (applied even when the minimums are relaxed), then, unless
the minimums are relaxed, defenders below 3, midfielders below 3, forwards
below 1, then always goalkeepers above 1, defenders above 5, midfielders
above 5, forwards above 3; it returns (true, none) when no rule fails and
otherwise (false, reason) with the reason of the first rule violated in
this order. Stated as equality with spec_rule_order_validator, which spells
out exactly that rule order. -/
theorem claim_C1 (roster swaps : List TM.FantasyRosterPlayer) (dm : Bool) :
    TM.valid_substitutions roster swaps dm =
      TM.spec_rule_order_validator roster swaps dm := by
  unfold TM.valid_substitutions TM.spec_rule_order_validator
  rw [tm_apply_swap_players_eq]
  cases h : swaps.find? (fun p => p.static.disable_lineup_change) <;> simp

/-- C10: a call to the substitution validator leaves the roster completely
unchanged whatever it returns: the state-threaded rendering of the method
returns the roster exactly as given, together with the same verdict as the
pure validator. -/
theorem claim_C10 (roster swaps : List TM.FantasyRosterPlayer) (dm : Bool) :
    (TM.valid_substitutions_state roster swaps dm).2 = roster ∧
      (TM.valid_substitutions_state roster swaps dm).1 =
        TM.valid_substitutions roster swaps dm := by
  unfold TM.valid_substitutions_state TM.valid_substitutions
  rw [tm_apply_swap_players_state_spec]
  exact ⟨rfl, rfl⟩

/-- C9: a player whose gameweek status set is empty is classified as
expected to play, lands in the first tier of both full-rebuild rankings,
and, as an unlocked reserve, is an eligible candidate of
get_reserves_starting_or_expected_to_play; the unaccounted-status branch of
the ranking is reached exactly by players with a non-empty status set
containing no recognized flag. -/
theorem claim_C9 (p : TM.FantasyRosterPlayer)
    (roster : List TM.FantasyRosterPlayer) :
    (p.static.icon_statuses = [] →
      is_expected_to_play p.static.icon_statuses = true ∧
        TM.cls_manager p.static = 0 ∧ TM.cls_domain p.static = 0 ∧
        (p.rostered_starter = false → p.static.disable_lineup_change = false →
          p ∈ roster →
          p ∈ TM.get_reserves_starting_or_expected_to_play roster)) ∧
      (TM.cls_manager p.static = 3 ↔
        p.static.icon_statuses ≠ [] ∧
          ∀ s ∈ p.static.icon_statuses, s ∉ recognized_statuses) := by
  constructor
  · intro hempty
    refine ⟨by simp [is_expected_to_play, hempty], ?_, ?_, ?_⟩
    · simp [TM.cls_manager, is_expected_to_play, hempty,
        is_uncertain_gametime_decision, is_benched_or_suspended_or_out,
        is_starting]
    · simp [TM.cls_domain, is_expected_to_play, hempty,
        is_uncertain_gametime_decision, is_benched_or_suspended_or_out,
        is_starting]
    · intro hres hlock hmem
      simp [TM.get_reserves_starting_or_expected_to_play, List.mem_filter,
        hmem, hres, hlock, is_expected_to_play, hempty]
  · rw [tm_cls_manager_eq_three_iff]

/-- C9 witness: the theorem applied to a concrete unlocked reserve with an
empty status set, all hypotheses discharged on the concrete input. -/
theorem witness_C9 :
    is_expected_to_play wit_c9_player.static.icon_statuses = true ∧
      TM.cls_manager wit_c9_player.static = 0 ∧
      TM.cls_domain wit_c9_player.static = 0 ∧
      wit_c9_player ∈
        TM.get_reserves_starting_or_expected_to_play [wit_c9_player] := by
  have h := (claim_C9 wit_c9_player [wit_c9_player]).1 rfl
  exact ⟨h.1, h.2.1, h.2.2.1, h.2.2.2 rfl rfl (by simp)⟩

/-- C2 counterexample: a roster whose only players are two locked starting
goalkeepers. The full rebuild (either variant) cannot touch them and
finishes with two starting goalkeepers, refuting both the exactly-one
goalkeeper claim and the unconditional at-most-one cap. -/
theorem counterexample_C2 :
    TM.count_starters_at
        (TM.optimize_lineup (fun _ => 0) ex_c2_roster) Pos.G = 2 ∧
      TM.count_starters_at
        (TM.manager_optimize_lineup ex_c2_roster) Pos.G = 2 := by
  constructor <;> rfl

/-- C2 (amended): for every roster whose locked starters alone satisfy the
never-relaxed caps (at most 1 goalkeeper, 5 defenders, 5 midfielders, 3
forwards, 11 total), the roster produced by the full-rebuild optimizer
(either variant, any scoring function) satisfies those same caps: at most 1
goalkeeper, at most 5 defenders, at most 5 midfielders, at most 3 forwards,
and at most 11 total starters, counting locked and unlocked starters.
Exactly one goalkeeper is not guaranteed (see the counterexample). -/
theorem claim_C2 (calculate_value : TM.PlayerStatic → Rat)
    (roster : List TM.FantasyRosterPlayer)
    (h : TM.caps_ok (TM.locked_starter_counts roster)) :
    TM.caps_ok (TM.starters_position_counts
        (TM.optimize_lineup calculate_value roster)) ∧
      TM.caps_ok (TM.starters_position_counts
        (TM.manager_optimize_lineup roster)) := by
  constructor
  · unfold TM.optimize_lineup
    apply tm_promote_players_loop_caps _ []
    rw [List.nil_append, tm_counts_reset,
      tm_locked_counts_perm (tm_sort_players_perm _ _),
      tm_locked_counts_score]
    exact h
  · unfold TM.manager_optimize_lineup
    apply tm_promote_players_loop_caps _ []
    rw [List.nil_append, tm_counts_reset,
      tm_locked_counts_perm (tm_sort_players_perm _ _)]
    exact h

/-- C2 witness: the amended claim applied to a concrete roster with no
locked players, the hypothesis discharged by computation. -/
theorem witness_C2 :
    TM.caps_ok (TM.starters_position_counts
        (TM.optimize_lineup (fun _ => 0) wit_c2_roster)) ∧
      TM.caps_ok (TM.starters_position_counts
        (TM.manager_optimize_lineup wit_c2_roster)) :=
  claim_C2 (fun _ => 0) wit_c2_roster (by decide)

/-- C6 counterexample: a cycle of the targeted path with two committed
substitutions submits twice, and toggles occur after the first submission:
the trace is toggle, toggle, submit, toggle, toggle, submit. -/
theorem counterexample_C6 :
    (LM.make_substitutions ex_c6_roster).2 =
      [Ev.toggle "d5", Ev.toggle "d4", Ev.submit, Ev.toggle "m5",
        Ev.toggle "m4", Ev.submit] ∧
      (LM.make_substitutions ex_c6_roster).2.count Ev.submit = 2 := by
  exact ⟨by decide, by decide⟩

/-- C6 (amended): the full-rebuild manager path submits exactly once per
cycle, after every toggle it performs (its trace is a toggle list followed
by one final submit); the targeted path instead submits once per committed
swap, each submission coming immediately after that swap's two toggles, so
with several swaps a partial lineup is submitted before later toggles. -/
theorem claim_C6 (r_tm : List TM.FantasyRosterPlayer)
    (r_lm : List LM.FantraxPlayer) :
    (∃ evs, TM.optimize_lineup_events r_tm = evs ++ [Ev.submit] ∧
        Ev.submit ∉ evs) ∧
      ∃ ps : List (String × String),
        (LM.make_substitutions r_lm).2 =
          ps.foldr (fun pr acc =>
            Ev.toggle pr.1 :: Ev.toggle pr.2 :: Ev.submit :: acc) [] := by
  constructor
  · refine ⟨TM.reset_events
      (TM.sort_players_by_gameweek_status_and_fantasy_value TM.cls_manager
        r_tm) ++
      (TM.promote_players_loop_events []
        (TM.reset_unlocked_to_reserve
          (TM.sort_players_by_gameweek_status_and_fantasy_value TM.cls_manager
            r_tm))).2, ?_, ?_⟩
    · simp [TM.optimize_lineup_events]
    · intro hmem
      rcases List.mem_append.1 hmem with hmem | hmem
      · exact tm_reset_events_no_submit _ hmem
      · exact tm_promote_events_no_submit _ [] hmem
  · exact lm_apply_substitutions_blocks (LM.get_optimal_substitutions r_lm)
      r_lm

/-- C7 counterexample: on a roster with two at-risk defenders and two
midfielder candidates, the source pairing differs from the claim's
commit-as-you-go description: the code validates every pair against the
pre-scan roster and pairs both at-risk starters, while committing each swap
before processing the next starter validates the second swap against the
updated roster, rejects it, and pairs only the first starter. -/
theorem counterexample_C7 :
    LM.get_optimal_substitutions ex_c7_roster ≠
        LM.spec_targeted_substitution ex_c7_roster ∧
      (LM.get_optimal_substitutions ex_c7_roster).map
          (fun pr => (pr.1.id, pr.2.id)) =
        [("d3", "m4"), ("d4", "m5")] ∧
      (LM.spec_targeted_substitution ex_c7_roster).map
          (fun pr => (pr.1.id, pr.2.id)) =
        [("d3", "m4")] := by
  exact ⟨by decide, by decide, by decide⟩

/-- C7 (amended): the targeted-substitution algorithm processes at-risk
starters in ascending order of value and candidate reserves in descending
order of value; for each at-risk starter it records as its pair the first
candidate, in that order, whose two-player swap the validator accepts
against the roster state from before any swap of this scan, removes that
candidate from future consideration, and leaves an at-risk starter with no
validating candidate in place, with no backtracking; the starter-flag
toggles are deferred to the commit phase rather than interleaved with the
scan. Stated as equality of get_optimal_substitutions with the fixed-roster
scan spelled out through find? and eraseP on the two sorted lists. -/
theorem claim_C7 (roster : List LM.FantraxPlayer) :
    LM.get_optimal_substitutions roster =
      LM.spec_fixed_scan roster
        ((LM.get_starters_at_risk_not_playing_in_gameweek
          roster).insertionSort LM.val_le)
        ((LM.get_reserves_starting_or_expected_to_play
          roster).insertionSort LM.val_ge) :=
  lm_pair_eq_fixed roster _ _

/-- C3 counterexample: in the lineup-manager targeted path, the locked
defender d4 (an at-risk starter) is paired and toggled: its
rostered_starter flag is true before the run and false after it, and no
call ever rejects it, because this variant's validator has no locked-player
check. -/
theorem counterexample_C3 :
    ((ex_c3_roster.find? fun q => q.id == "d4").map
        fun q => q.disable_lineup_change) = some true ∧
      ((ex_c3_roster.find? fun q => q.id == "d4").map
        fun q => q.rostered_starter) = some true ∧
      (((LM.make_substitutions ex_c3_roster).1.find? fun q => q.id == "d4").map
        fun q => q.rostered_starter) = some false := by
  exact ⟨rfl, rfl, by decide⟩

/-- C3 (amended): the full-rebuild optimizer (either variant) preserves
every locked player's rostered_starter flag, and every team-manager
validator call whose toggle list contains a locked player (the first such
player being p) is rejected with the verbatim disabled-from-lineup-changes
reason. The lineup-manager targeted path enforces no such lock: its
validator has no locked check and it can toggle a locked player (see the
counterexample). -/
theorem claim_C3 (calculate_value : TM.PlayerStatic → Rat)
    (roster swaps : List TM.FantasyRosterPlayer) (dm : Bool)
    (p : TM.FantasyRosterPlayer) :
    (((TM.optimize_lineup calculate_value roster).filter
        (fun q => q.static.disable_lineup_change)).map
        (fun q => (q.static.id, q.rostered_starter))).Perm
        ((roster.filter fun q => q.static.disable_lineup_change).map
          fun q => (q.static.id, q.rostered_starter)) ∧
      (((TM.manager_optimize_lineup roster).filter
          (fun q => q.static.disable_lineup_change)).map
          (fun q => (q.static.id, q.rostered_starter))).Perm
          ((roster.filter fun q => q.static.disable_lineup_change).map
            fun q => (q.static.id, q.rostered_starter)) ∧
      (swaps.find? (fun q => q.static.disable_lineup_change) = some p →
        TM.valid_substitutions roster swaps dm =
          (false, some (TM.disabled_msg p))) := by
  refine ⟨?_, ?_, ?_⟩
  · have hpi : (TM.optimize_lineup calculate_value roster).map TM.pi_proj =
        (TM.reset_unlocked_to_reserve
          (TM.sort_players_by_gameweek_status_and_fantasy_value TM.cls_domain
            (roster.map fun p =>
              { p with value_for_gameweek :=
                  calculate_value p.static }))).map TM.pi_proj := by
      simpa using tm_promote_players_loop_pi
        (TM.reset_unlocked_to_reserve
          (TM.sort_players_by_gameweek_status_and_fantasy_value TM.cls_domain
            (roster.map fun p =>
              { p with value_for_gameweek := calculate_value p.static }))) []
    rw [tm_locked_idflag_of_pi hpi, tm_reset_locked_filter]
    have hperm := ((tm_sort_players_perm TM.cls_domain
        (roster.map fun p =>
          { p with value_for_gameweek := calculate_value p.static })).filter
        (fun q => q.static.disable_lineup_change)).map
      (fun q => (q.static.id, q.rostered_starter))
    rw [tm_score_locked_idflag] at hperm
    exact hperm
  · have hpi : (TM.manager_optimize_lineup roster).map TM.pi_proj =
        (TM.reset_unlocked_to_reserve
          (TM.sort_players_by_gameweek_status_and_fantasy_value TM.cls_manager
            roster)).map TM.pi_proj := by
      simpa using tm_promote_players_loop_pi
        (TM.reset_unlocked_to_reserve
          (TM.sort_players_by_gameweek_status_and_fantasy_value TM.cls_manager
            roster)) []
    rw [tm_locked_idflag_of_pi hpi, tm_reset_locked_filter]
    exact ((tm_sort_players_perm TM.cls_manager roster).filter
        (fun q => q.static.disable_lineup_change)).map
      (fun q => (q.static.id, q.rostered_starter))
  · intro hfind
    unfold TM.valid_substitutions
    rw [tm_apply_swap_players_eq, hfind]

/-- C3 witness: the amended claim applied to a concrete one-player roster
whose player is locked, the validator hypothesis discharged by rfl. -/
theorem witness_C3 :
    (((TM.optimize_lineup (fun _ => 0) [wit_c3_locked]).filter
        (fun q => q.static.disable_lineup_change)).map
        (fun q => (q.static.id, q.rostered_starter))).Perm
        (([wit_c3_locked].filter fun q => q.static.disable_lineup_change).map
          fun q => (q.static.id, q.rostered_starter)) ∧
      (((TM.manager_optimize_lineup [wit_c3_locked]).filter
          (fun q => q.static.disable_lineup_change)).map
          (fun q => (q.static.id, q.rostered_starter))).Perm
          (([wit_c3_locked].filter fun q => q.static.disable_lineup_change).map
            fun q => (q.static.id, q.rostered_starter)) ∧
      TM.valid_substitutions [wit_c3_locked] [wit_c3_locked] false =
        (false, some "Player L is disabled from lineup changes") := by
  have h := claim_C3 (fun _ => 0) [wit_c3_locked] [wit_c3_locked] false
    wit_c3_locked
  exact ⟨h.1, h.2.1, h.2.2 rfl⟩

/-- C5: running the full-rebuild optimizer twice in succession with the same
scoring function and no external state change yields the same roster, in
particular the same starter set, as running it once: the second run is a
fixpoint. -/
theorem claim_C5 (calculate_value : TM.PlayerStatic → Rat)
    (roster : List TM.FantasyRosterPlayer) :
    TM.optimize_lineup calculate_value
        (TM.optimize_lineup calculate_value roster) =
      TM.optimize_lineup calculate_value roster ∧
      (TM.optimize_lineup calculate_value
          (TM.optimize_lineup calculate_value roster)).filter
          (fun p => p.rostered_starter) =
        (TM.optimize_lineup calculate_value roster).filter
          (fun p => p.rostered_starter) := by
  set scored := roster.map
    (fun p => { p with value_for_gameweek := calculate_value p.static })
    with hscored
  set s := TM.sort_players_by_gameweek_status_and_fantasy_value
    TM.cls_domain scored with hs
  set i := TM.reset_unlocked_to_reserve s with hi
  set o := TM.promote_players_loop [] i with ho
  have hor : TM.optimize_lineup calculate_value roster = o := rfl
  have hpi : o.map TM.pi_proj = i.map TM.pi_proj := by
    rw [ho]
    simpa using tm_promote_players_loop_pi i []
  have h2 : ∀ p ∈ scored, p.value_for_gameweek = calculate_value p.static := by
    intro p hp
    rcases List.mem_map.1 hp with ⟨q, _, rfl⟩
    rfl
  have h3 : ∀ p ∈ s, p.value_for_gameweek = calculate_value p.static := by
    intro p hp
    exact h2 p ((tm_sort_players_perm TM.cls_domain scored).mem_iff.1 hp)
  have h4 : ∀ p ∈ i, p.value_for_gameweek = calculate_value p.static := by
    intro p hp
    rw [hi] at hp
    unfold TM.reset_unlocked_to_reserve at hp
    rcases List.mem_map.1 hp with ⟨q, hq, rfl⟩
    by_cases hl : q.static.disable_lineup_change = true
    · simpa [hl] using h3 q hq
    · simpa [hl, TM.change_to_reserve] using h3 q hq
  have h5 : ∀ p ∈ o, p.value_for_gameweek = calculate_value p.static := by
    intro p hp
    rcases map_eq_mem_transfer TM.pi_proj hpi hp with ⟨y, hy, hye⟩
    have hstat : y.static = p.static := congrArg Prod.fst hye
    have hval : y.value_for_gameweek = p.value_for_gameweek :=
      congrArg (fun x => x.2.1) hye
    rw [← hval, ← hstat]
    exact h4 y hy
  have hscore_o :
      (o.map fun p =>
        { p with value_for_gameweek := calculate_value p.static }) = o :=
    tm_score_fix calculate_value o h5
  have hsort_s : TM.sort_players_by_gameweek_status_and_fantasy_value
      TM.cls_domain s = s := by
    rw [hs]
    exact tm_sort_players_idem TM.cls_domain scored
  have hsort_pi :
      (TM.sort_players_by_gameweek_status_and_fantasy_value TM.cls_domain
        o).map TM.pi_proj = s.map TM.pi_proj := by
    rw [tm_pi_sort_commute, hpi, hi, tm_reset_pi, ← tm_pi_sort_commute,
      hsort_s]
  have hreset : TM.reset_unlocked_to_reserve
      (TM.sort_players_by_gameweek_status_and_fantasy_value TM.cls_domain o) =
      i := by
    rw [hi]
    exact tm_reset_eq_of_pi hsort_pi
  have main : TM.optimize_lineup calculate_value o = o := by
    show TM.promote_players_loop []
      (TM.reset_unlocked_to_reserve
        (TM.sort_players_by_gameweek_status_and_fantasy_value TM.cls_domain
          (o.map fun p =>
            { p with value_for_gameweek := calculate_value p.static }))) = o
    rw [hscore_o, hreset, ho]
  rw [hor]
  exact ⟨main, by rw [main]⟩

/-- C4 counterexample: a player with a team in the table, a nonzero points
history and no upcoming fixture. With no odds supplied the calculator does
not return the base value with a neutral 1.0 multiplier: the standings
fallback looks up the absent opponent and raises the lookup error. -/
theorem counterexample_C4 :
    Calc.calculate_fantasy_value_for_gameweek ex_c4_player ex_c4_stats
        ex_c4_table none =
      .error "Opponent None not found in Premier League team stats" ∧
      ∀ x : ℝ, Calc.calculate_fantasy_value_for_gameweek ex_c4_player
        ex_c4_stats ex_c4_table none ≠ .ok x := by
  have h : Calc.calculate_fantasy_value_for_gameweek ex_c4_player ex_c4_stats
      ex_c4_table none =
      .error "Opponent None not found in Premier League team stats" := rfl
  refine ⟨h, fun x hx => ?_⟩
  rw [h] at hx
  exact Except.noConfusion hx

/-- C4 (amended): for every player whose upcoming fixture is not scheduled
(opponent None) and whose team is present in the standings, a call with no
head-to-head odds does not default the multiplier to 1.0: it raises the
standings lookup error for the absent opponent. The 1.0 default exists only
in odds mode when a price is missing. -/
theorem claim_C4 (player : TM.PlayerStatic)
    (stats : List Calc.PlayerGameweekStats)
    (table : List (String × Calc.PremierLeagueTeam))
    (hopp : player.upcoming_game_opponent = none)
    (hteam : ∃ t, Calc.premier_league_table_get table player.team_name =
      some t) :
    Calc.calculate_fantasy_value_for_gameweek player stats table none =
      .error "Opponent None not found in Premier League team stats" := by
  obtain ⟨t, ht⟩ := hteam
  unfold Calc.calculate_fantasy_value_for_gameweek
  unfold Calc.calc_fixture_difficulty_coefficient_with_league_standings
  rw [ht, hopp]
  rfl

/-- C4 witness: the amended claim applied to the concrete no-fixture player,
both hypotheses discharged on the concrete input. -/
theorem witness_C4 :
    Calc.calculate_fantasy_value_for_gameweek ex_c4_player ex_c4_stats
        ex_c4_table none =
      .error "Opponent None not found in Premier League team stats" :=
  claim_C4 ex_c4_player ex_c4_stats ex_c4_table rfl ⟨{ rank := 1 }, rfl⟩

theorem real_tanh_eq_one_sub (x : ℝ) :
    Real.tanh x = 1 - 2 / (Real.exp (2 * x) + 1) := by
  rw [Real.tanh_eq_sinh_div_cosh, Real.sinh_eq, Real.cosh_eq]
  have h1 : (0 : ℝ) < Real.exp x := Real.exp_pos x
  have h3 : Real.exp (2 * x) = Real.exp x * Real.exp x := by
    rw [two_mul, Real.exp_add]
  rw [h3, Real.exp_neg]
  have h5 : Real.exp x ≠ 0 := ne_of_gt h1
  have h6 : Real.exp x + (Real.exp x)⁻¹ ≠ 0 := by positivity
  have h7 : Real.exp x * Real.exp x + 1 ≠ 0 := by positivity
  field_simp
  ring

theorem real_tanh_strict_mono {x y : ℝ} (h : x < y) :
    Real.tanh x < Real.tanh y := by
  rw [real_tanh_eq_one_sub, real_tanh_eq_one_sub]
  have hx : (0 : ℝ) < Real.exp (2 * x) + 1 := by positivity
  have hlt : Real.exp (2 * x) < Real.exp (2 * y) := by
    apply Real.exp_lt_exp.2
    linarith
  have hdiv : 2 / (Real.exp (2 * y) + 1) < 2 / (Real.exp (2 * x) + 1) :=
    div_lt_div_of_pos_left (by norm_num) hx (by linarith)
  linarith

theorem real_tanh_lt_one (x : ℝ) : Real.tanh x < 1 := by
  rw [real_tanh_eq_one_sub]
  have : (0 : ℝ) < 2 / (Real.exp (2 * x) + 1) := by positivity
  linarith

theorem neg_one_lt_real_tanh (x : ℝ) : -1 < Real.tanh x := by
  rw [real_tanh_eq_one_sub]
  have hx : (0 : ℝ) < Real.exp (2 * x) := Real.exp_pos _
  have h1 : (0 : ℝ) < Real.exp (2 * x) + 1 := by positivity
  have : 2 / (Real.exp (2 * x) + 1) < 2 := by
    rw [div_lt_iff₀ h1]
    nlinarith
  linarith

/-- C8 counterexample: with the source constants k = 0.8, a = 0.4 and a
20-team table, the pair with the smaller rank difference (rank 1 against
rank 20, difference -19) receives the strictly smaller multiplier, not the
larger one: the multiplier grows as (team_rank - opponent_rank) grows. The
spec text has the direction backwards (its own Scenario A, rank 1 against
rank 20 giving a multiplier below 1, agrees with the code). -/
theorem counterexample_C8 :
    Calc.coefficient_calculation 0.8 0.4 1 20 20 <
      Calc.coefficient_calculation 0.8 0.4 20 1 20 := by
  unfold Calc.coefficient_calculation
  have h := real_tanh_strict_mono
    (show (0.4 : ℝ) * (1 - 20) / (20 - 1) < 0.4 * (20 - 1) / (20 - 1) by
      norm_num)
  nlinarith [h]

/-- C8 (amended): for every standings table of at least 2 teams and source
constants k = 0.8, a = 0.4, the standings-mode multiplier
1 + k * tanh(a * (team_rank - opponent_rank) / (N - 1)) is strictly
increasing as (team_rank - opponent_rank) increases (so it strictly
decreases as the difference decreases), and its value always lies within
[1 - k, 1 + k]. -/
theorem claim_C8 (N : ℕ) (t1 o1 t2 o2 : ℤ) (hN : 2 ≤ N)
    (hlt : t1 - o1 < t2 - o2) :
    Calc.coefficient_calculation 0.8 0.4 (t1 : ℝ) (o1 : ℝ) (N : ℝ) <
        Calc.coefficient_calculation 0.8 0.4 (t2 : ℝ) (o2 : ℝ) (N : ℝ) ∧
      ∀ t o : ℤ,
        1 - 0.8 ≤
            Calc.coefficient_calculation 0.8 0.4 (t : ℝ) (o : ℝ) (N : ℝ) ∧
          Calc.coefficient_calculation 0.8 0.4 (t : ℝ) (o : ℝ) (N : ℝ) ≤
            1 + 0.8 := by
  have hden : (0 : ℝ) < (N : ℝ) - 1 := by
    have h2 : (2 : ℝ) ≤ (N : ℝ) := by exact_mod_cast hN
    linarith
  constructor
  · unfold Calc.coefficient_calculation
    have hdi : ((t1 : ℝ) - o1) < ((t2 : ℝ) - o2) := by
      exact_mod_cast hlt
    have harg : (0.4 : ℝ) * ((t1 : ℝ) - o1) / ((N : ℝ) - 1) <
        0.4 * ((t2 : ℝ) - o2) / ((N : ℝ) - 1) := by
      apply (div_lt_div_iff_of_pos_right hden).2
      linarith
    have h := real_tanh_strict_mono harg
    nlinarith [h]
  · intro t o
    unfold Calc.coefficient_calculation
    have h1 := real_tanh_lt_one (0.4 * ((t : ℝ) - o) / ((N : ℝ) - 1))
    have h2 := neg_one_lt_real_tanh (0.4 * ((t : ℝ) - o) / ((N : ℝ) - 1))
    constructor <;> nlinarith [h1, h2]

/-- C8 witness: the amended claim at the concrete 20-team table with ranks
1 against 20 and 20 against 1, hypotheses discharged numerically. -/
theorem witness_C8 :
    Calc.coefficient_calculation 0.8 0.4 ((1 : ℤ) : ℝ) ((20 : ℤ) : ℝ)
        ((20 : ℕ) : ℝ) <
      Calc.coefficient_calculation 0.8 0.4 ((20 : ℤ) : ℝ) ((1 : ℤ) : ℝ)
        ((20 : ℕ) : ℝ) :=
  (claim_C8 20 1 20 20 1 (by norm_num) (by norm_num)).1

end FPL
